import Mathlib

/-!
Verification of a PDF data-extraction service: a shallow embedding of its
key builder, multi-tier cache manager, structural matcher, pattern builder,
rule executor, template store/orchestrator and top-level pipeline, together
with theorems settling the specified properties.

Python dictionaries are modelled as insertion-ordered association lists,
machine reals (Python floats) as exact rationals, byte strings as lists of
naturals below 256, and raised exceptions through an `Except` monad.
-/

set_option maxRecDepth 8000

namespace PDFX

/-! ## Python dict / ordered-map helpers -/

/-- First-match lookup in an association list (Python `dict.get`). -/
def dictLookup {α : Type} (m : List (String × α)) (k : String) : Option α :=
  match m with
  | [] => none
  | (k', v) :: rest => if k' = k then some v else dictLookup rest k

/-- Python `d[k] = v`: replace the value in place if the key exists
(keeping its position, as Python dicts do), otherwise append. -/
def dictInsert {α : Type} (m : List (String × α)) (k : String) (v : α) :
    List (String × α) :=
  match m with
  | [] => [(k, v)]
  | (k', v') :: rest =>
      if k' = k then (k', v) :: rest else (k', v') :: dictInsert rest k v

/-- Python `d.update(other)`: insert every binding of `other` in order. -/
def dictUpdate {α : Type} (m other : List (String × α)) : List (String × α) :=
  other.foldl (fun acc kv => dictInsert acc kv.1 kv.2) m

/-- The keys of an association list, in order. -/
def dictKeys {α : Type} (m : List (String × α)) : List String :=
  m.map Prod.fst

theorem dictKeys_cons {α : Type} (p : String × α) (m : List (String × α)) :
    dictKeys (p :: m) = p.1 :: dictKeys m := rfl

theorem dictLookup_dictInsert_self {α : Type} (m : List (String × α))
    (k : String) (v : α) : dictLookup (dictInsert m k v) k = some v := by
  induction m with
  | nil => simp [dictInsert, dictLookup]
  | cons hd tl ih =>
      by_cases h : hd.1 = k
      · simp [dictInsert, dictLookup, h]
      · simp [dictInsert, dictLookup, h, ih]

theorem dictInsert_length_of_mem {α : Type} (m : List (String × α))
    (k : String) (v : α) (h : k ∈ dictKeys m) :
    (dictInsert m k v).length = m.length := by
  induction m with
  | nil => simp [dictKeys] at h
  | cons hd tl ih =>
      by_cases hk : hd.1 = k
      · simp [dictInsert, hk]
      · rw [dictKeys_cons] at h
        rcases List.mem_cons.mp h with h1 | h1
        · exact absurd h1.symm hk
        · simp [dictInsert, hk, ih h1]

theorem dictInsert_length_of_not_mem {α : Type} (m : List (String × α))
    (k : String) (v : α) (h : k ∉ dictKeys m) :
    (dictInsert m k v).length = m.length + 1 := by
  induction m with
  | nil => simp [dictInsert]
  | cons hd tl ih =>
      rw [dictKeys_cons] at h
      have h1 : hd.1 ≠ k := fun he => h (List.mem_cons.mpr (Or.inl he.symm))
      have h2 : k ∉ dictKeys tl := fun hm => h (List.mem_cons.mpr (Or.inr hm))
      simp [dictInsert, h1, ih h2]

/-! ## Bytes and SHA-256

`hashlib.sha256` over byte strings, implemented on `Nat` with explicit
reduction modulo `2 ^ 32`. -/

/-- A byte string: list of naturals (each below 256 for genuine inputs). -/
abbrev Bytes := List Nat

/-- Truncate to a 32-bit word. -/
def w32 (n : Nat) : Nat := n % 4294967296

/-- 32-bit addition. -/
def wadd (a b : Nat) : Nat := w32 (a + b)

/-- 32-bit right rotation by `n`. -/
def rotr (n x : Nat) : Nat := w32 (x >>> n ||| x <<< (32 - n))

/-- Bitwise complement on 32 bits. -/
def wnot (x : Nat) : Nat := Nat.xor x 4294967295

def sha256_k : List Nat :=
  [1116352408, 1899447441, 3049323471, 3921009573, 961987163,
   1508970993, 2453635748, 2870763221, 3624381080, 310598401,
   607225278, 1426881987, 1925078388, 2162078206, 2614888103,
   3248222580, 3835390401, 4022224774, 264347078, 604807628,
   770255983, 1249150122, 1555081692, 1996064986, 2554220882,
   2821834349, 2952996808, 3210313671, 3336571891, 3584528711,
   113926993, 338241895, 666307205, 773529912, 1294757372,
   1396182291, 1695183700, 1986661051, 2177026350, 2456956037,
   2730485921, 2820302411, 3259730800, 3345764771, 3516065817,
   3600352804, 4094571909, 275423344, 430227734, 506948616,
   659060556, 883997877, 958139571, 1322822218, 1537002063,
   1747873779, 1955562222, 2024104815, 2227730452, 2361852424,
   2428436474, 2756734187, 3204031479, 3329325298]

/-- The eight starting hash words of SHA-256. -/
def sha256_h0 : List Nat :=
  [1779033703, 3144134277, 1013904242, 2773480762,
   1359893119, 2600822924, 528734635, 1541459225]

/-- SHA-256 message padding: append `0x80`, zeros, and the 64-bit
big-endian bit length. -/
def sha256_pad (msg : Bytes) : Bytes :=
  let L := msg.length
  let zeros := (119 - (L % 64)) % 64
  let bitLen := L * 8
  let lenBytes :=
    [bitLen >>> 56 % 256, bitLen >>> 48 % 256, bitLen >>> 40 % 256,
     bitLen >>> 32 % 256, bitLen >>> 24 % 256, bitLen >>> 16 % 256,
     bitLen >>> 8 % 256, bitLen % 256]
  msg ++ [0x80] ++ List.replicate zeros 0 ++ lenBytes

/-- Split a padded message into 64-byte blocks; the fuel argument bounds
the number of blocks so the recursion is structural. -/
def toBlocksAux : Nat → Bytes → List Bytes
  | 0, _ => []
  | fuel + 1, l => if l = [] then [] else l.take 64 :: toBlocksAux fuel (l.drop 64)

/-- Split a padded message into 64-byte blocks. -/
def toBlocks (l : Bytes) : List Bytes := toBlocksAux (l.length + 1) l

/-- The first 16 big-endian 32-bit words of a 64-byte block. -/
def blockWords (b : Bytes) : List Nat :=
  (List.range 16).map fun i =>
    let get := fun j => b.getD (4 * i + j) 0
    get 0 <<< 24 + get 1 <<< 16 + get 2 <<< 8 + get 3

/-- Extend the 16-word schedule to 64 words; `n` counts the words
still to be produced. -/
def extendSchedule : Nat → Array Nat → Array Nat
  | 0, w => w
  | n + 1, w =>
      let i := w.size
      let g := fun j => w.getD (i - j) 0
      let s0 := Nat.xor (Nat.xor (rotr 7 (g 15)) (rotr 18 (g 15))) ((g 15) >>> 3)
      let s1 := Nat.xor (Nat.xor (rotr 17 (g 2)) (rotr 19 (g 2))) ((g 2) >>> 10)
      extendSchedule n (w.push (wadd (wadd (g 16) s0) (wadd (g 7) s1)))

/-- One round of the SHA-256 compression function. -/
def sha256_round (st : List Nat) (ki wi : Nat) : List Nat :=
  match st with
  | [a, b, c, d, e, f, g, h] =>
      let S1 := Nat.xor (Nat.xor (rotr 6 e) (rotr 11 e)) (rotr 25 e)
      let ch := Nat.xor (Nat.land e f) (Nat.land (wnot e) g)
      let temp1 := wadd (wadd (wadd h S1) (wadd ch ki)) wi
      let S0 := Nat.xor (Nat.xor (rotr 2 a) (rotr 13 a)) (rotr 22 a)
      let maj := Nat.xor (Nat.xor (Nat.land a b) (Nat.land a c)) (Nat.land b c)
      let temp2 := wadd S0 maj
      [wadd temp1 temp2, a, b, c, wadd d temp1, e, f, g]
  | other => other

/-- Compress one 64-byte block into the running hash. -/
def sha256_compress (hsh : List Nat) (block : Bytes) : List Nat :=
  let w := extendSchedule 48 (Array.mk (blockWords block))
  let final := (List.zip sha256_k w.toList).foldl
    (fun st kw => sha256_round st kw.1 kw.2) hsh
  List.zipWith wadd hsh final

def hexDigits : List Char :=
  "0123456789abcdef".toList

/-- Eight lowercase hex digits of a 32-bit word. -/
def wordToHex (n : Nat) : List Char :=
  (List.range 8).map fun i =>
    hexDigits.getD (n >>> ((7 - i) * 4) % 16) '0'

/-- The eight 32-bit words of the SHA-256 digest. -/
def sha256words (msg : Bytes) : List Nat :=
  (toBlocks (sha256_pad msg)).foldl sha256_compress sha256_h0

/-- `hashlib.sha256(content).hexdigest()`. -/
def sha256hex (msg : Bytes) : String :=
  String.mk ((sha256words msg).foldr (fun wrd acc => wordToHex wrd ++ acc) [])

/-- UTF-8 encoding of one code point. -/
def utf8Bytes (n : Nat) : List Nat :=
  if n < 0x80 then [n]
  else if n < 0x800 then [0xC0 + n / 64, 0x80 + n % 64]
  else if n < 0x10000 then
    [0xE0 + n / 4096, 0x80 + n / 64 % 64, 0x80 + n % 64]
  else
    [0xF0 + n / 262144, 0x80 + n / 4096 % 64, 0x80 + n / 64 % 64, 0x80 + n % 64]

/-- UTF-8 bytes of a string (Python `str.encode()`). -/
def strBytes (s : String) : Bytes :=
  s.toList.foldr (fun c acc => utf8Bytes c.toNat ++ acc) []

/-! ## Canonical JSON encoding of a schema

`json.dumps(schema, sort_keys=True)` with Python's default separators and
`ensure_ascii=True`. -/

/-- `\uXXXX` escape (with a surrogate pair above the BMP). -/
def jsonUnicodeEscape (n : Nat) : List Char :=
  let hex4 := fun (m : Nat) =>
    ['\\', 'u', hexDigits.getD (m / 4096 % 16) '0', hexDigits.getD (m / 256 % 16) '0',
     hexDigits.getD (m / 16 % 16) '0', hexDigits.getD (m % 16) '0']
  if n < 0x10000 then hex4 n
  else hex4 (0xD800 + (n - 0x10000) / 0x400) ++ hex4 (0xDC00 + (n - 0x10000) % 0x400)

/-- Escape one character as Python `json.dumps` does. -/
def jsonEscapeChar (c : Char) : List Char :=
  if c = '"' then ['\\', '"']
  else if c = '\\' then ['\\', '\\']
  else if c = '\n' then ['\\', 'n']
  else if c = '\r' then ['\\', 'r']
  else if c = '\t' then ['\\', 't']
  else if c.toNat = 8 then ['\\', 'b']
  else if c.toNat = 12 then ['\\', 'f']
  else if c.toNat < 32 || 126 < c.toNat then jsonUnicodeEscape c.toNat
  else [c]

/-- A JSON string literal for `s`. -/
def jsonDumpStr (s : String) : String :=
  String.mk ('"' :: s.toList.foldr (fun c acc => jsonEscapeChar c ++ acc) ['"'])

/-- `json.dumps(schema, sort_keys=True)`: items sorted by key, rendered with
the default `", "` and `": "` separators. -/
def dumps_sorted (schema : List (String × String)) : String :=
  let sorted := schema.mergeSort (fun a b => decide (a.1 ≤ b.1))
  "\x7b" ++
    String.intercalate ", "
      (sorted.map fun kv => jsonDumpStr kv.1 ++ ": " ++ jsonDumpStr kv.2) ++
    "\x7d"

/-! ## CacheKeyBuilder (`core/store/key_gen.py`) -/

namespace CacheKeyBuilder

/-- SHA-256 hex digest of raw content. -/
def _hash_content (content : Bytes) : String := sha256hex content

/-- SHA-256 hex digest of the canonical (sorted-keys) JSON of the schema. -/
def _hash_schema (schema : List (String × String)) : String :=
  sha256hex (strBytes (dumps_sorted schema))

/-- The L1/L2 request key `\x7bpdf_hash\x7d:\x7blabel\x7d:\x7bschema_hash\x7d`. -/
def generate_l1_l2_key (pdf_bytes : Bytes) (label : String)
    (schema : List (String × String)) : String :=
  _hash_content pdf_bytes ++ ":" ++ label ++ ":" ++ _hash_schema schema

/-- The L3 per-field key `field:\x7bpdf_hash\x7d:\x7blabel\x7d:\x7bfield_name\x7d`. -/
def generate_l3_field_key (pdf_bytes : Bytes) (label : String)
    (field_name : String) : String :=
  "field:" ++ _hash_content pdf_bytes ++ ":" ++ label ++ ":" ++ field_name

end CacheKeyBuilder

/-! ## Sorting association lists with distinct keys is order-insensitive -/

theorem eq_of_perm_of_pairwise_asymm {α : Type} {r : α → α → Prop}
    (asymm : ∀ a b, r a b → r b a → False) :
    ∀ {l₁ l₂ : List α}, l₁.Perm l₂ → l₁.Pairwise r → l₂.Pairwise r → l₁ = l₂ := by
  intro l₁
  induction l₁ with
  | nil => intro l₂ hp _ _; exact (hp.symm.eq_nil).symm
  | cons a t₁ ih =>
      intro l₂ hp h₁ h₂
      match l₂ with
      | [] => exact absurd hp.eq_nil (by simp)
      | b :: t₂ =>
          by_cases hab : a = b
          · subst hab
            have := ih (hp.cons_inv) (List.pairwise_cons.mp h₁).2
              (List.pairwise_cons.mp h₂).2
            rw [this]
          · have ha2 : a ∈ t₂ := by
              have := hp.subset (List.mem_cons_self a t₁)
              rcases List.mem_cons.mp this with h | h
              · exact absurd h hab
              · exact h
            have hb1 : b ∈ t₁ := by
              have := hp.symm.subset (List.mem_cons_self b t₂)
              rcases List.mem_cons.mp this with h | h
              · exact absurd h.symm hab
              · exact h
            exact absurd ((List.pairwise_cons.mp h₂).1 a ha2)
              (fun hr => asymm a b ((List.pairwise_cons.mp h₁).1 b hb1) hr)

/-- Sorting an association list by key gives the same result for any two
permutation-equivalent lists with duplicate-free keys. -/
theorem mergeSort_key_eq_of_perm (s₁ s₂ : List (String × String))
    (hperm : s₁.Perm s₂) (hnodup : (s₁.map Prod.fst).Nodup) :
    s₁.mergeSort (fun a b => decide (a.1 ≤ b.1)) =
      s₂.mergeSort (fun a b => decide (a.1 ≤ b.1)) := by
  have htrans : ∀ a b c : String × String,
      decide (a.1 ≤ b.1) = true → decide (b.1 ≤ c.1) = true →
      decide (a.1 ≤ c.1) = true := by
    intro a b c h₁ h₂
    simp only [decide_eq_true_eq] at *
    exact le_trans h₁ h₂
  have htotal : ∀ a b : String × String,
      (decide (a.1 ≤ b.1) || decide (b.1 ≤ a.1)) = true := by
    intro a b
    simp [le_total]
  have hperm' : (s₁.mergeSort (fun a b => decide (a.1 ≤ b.1))).Perm
      (s₂.mergeSort (fun a b => decide (a.1 ≤ b.1))) :=
    ((s₁.mergeSort_perm _).trans hperm).trans (s₂.mergeSort_perm _).symm
  have strictOf : ∀ (s : List (String × String)),
      (s.map Prod.fst).Nodup →
      (s.mergeSort (fun a b => decide (a.1 ≤ b.1))).Pairwise
        (fun a b => a.1 < b.1) := by
    intro s hnd
    have hsorted := List.sorted_mergeSort htrans htotal s
    have hperm2 : ((s.mergeSort (fun a b => decide (a.1 ≤ b.1))).map Prod.fst).Perm
        (s.map Prod.fst) := (s.mergeSort_perm _).map Prod.fst
    have hnd2 : ((s.mergeSort (fun a b => decide (a.1 ≤ b.1))).map Prod.fst).Nodup :=
      hperm2.nodup_iff.mpr hnd
    have hne : (s.mergeSort (fun a b => decide (a.1 ≤ b.1))).Pairwise
        (fun a b => a.1 ≠ b.1) := List.pairwise_map.mp hnd2
    exact (hsorted.and hne).imp
      (fun h => lt_of_le_of_ne (by simpa using h.1) h.2)
  have hnd₂ : (s₂.map Prod.fst).Nodup :=
    ((hperm.map Prod.fst).nodup_iff).mp hnodup
  exact eq_of_perm_of_pairwise_asymm
    (fun a b h₁ h₂ => absurd h₂ (lt_asymm h₁)) hperm'
    (strictOf s₁ hnodup) (strictOf s₂ hnd₂)

/-- Claim C6: the L1/L2 cache key is a deterministic function of the PDF
bytes, label and schema, insensitive to schema key order, and has the shape
`sha256(pdf):label:sha256(canonical sorted-key JSON of schema)`. -/
theorem key_builder_deterministic_order_insensitive (pdf_bytes : Bytes)
    (label : String) (s₁ s₂ : List (String × String)) (hperm : s₁.Perm s₂)
    (hnodup : (s₁.map Prod.fst).Nodup) :
    CacheKeyBuilder.generate_l1_l2_key pdf_bytes label s₁ =
      CacheKeyBuilder.generate_l1_l2_key pdf_bytes label s₂ ∧
    CacheKeyBuilder.generate_l1_l2_key pdf_bytes label s₁ =
      sha256hex pdf_bytes ++ ":" ++ label ++ ":" ++
        sha256hex (strBytes (dumps_sorted s₁)) := by
  constructor
  · unfold CacheKeyBuilder.generate_l1_l2_key CacheKeyBuilder._hash_schema
      dumps_sorted
    rw [mergeSort_key_eq_of_perm s₁ s₂ hperm hnodup]
  · rfl

/-- Witness for C6 at a concrete input: two schemas that agree as maps but
list their keys in different orders yield the same key. -/
theorem key_builder_deterministic_order_insensitive_witness :
    List.Perm [("b", "2"), ("a", "1")] [("a", "1"), ("b", "2")] ∧
    (([("b", "2"), ("a", "1")] : List (String × String)).map Prod.fst).Nodup ∧
    (CacheKeyBuilder.generate_l1_l2_key [37] "carteira_oab" [("b", "2"), ("a", "1")] =
      CacheKeyBuilder.generate_l1_l2_key [37] "carteira_oab" [("a", "1"), ("b", "2")] ∧
    CacheKeyBuilder.generate_l1_l2_key [37] "carteira_oab" [("b", "2"), ("a", "1")] =
      sha256hex [37] ++ ":" ++ "carteira_oab" ++ ":" ++
        sha256hex (strBytes (dumps_sorted [("b", "2"), ("a", "1")]))) :=
  ⟨by decide, by decide,
    key_builder_deterministic_order_insensitive [37] "carteira_oab"
      [("b", "2"), ("a", "1")] [("a", "1"), ("b", "2")] (by decide) (by decide)⟩

/-! ## Data model: values, metadata, cache entries -/

/-- The pipeline metadata object (`\x7b"method": ..., "steps": [...]\x7d`). -/
structure PipelineMeta where
  method : String
  steps : List String
deriving DecidableEq, Repr

/-- A JSON-ish field value as the pipeline handles it: `null`, a string, or
the nested `_pipeline` metadata object merged into the response. -/
inductive Val where
  | vnull
  | vstr (s : String)
  | vmeta (m : PipelineMeta)
deriving DecidableEq, Repr

/-- The `_cache_info` annotation added to returned cache entries. -/
structure CacheInfo where
  source : String
  fields_found : Option Nat := none
  fields_requested : Option Nat := none
deriving DecidableEq, Repr

/-- A cache entry dict.  Entries written by `set` carry `metadata` and
`timestamp`; the synthesised L3-partial entry carries neither, hence the
`Option`s. -/
structure CacheEntry where
  data : List (String × Val)
  metadata : Option PipelineMeta
  timestamp : Option Nat
  cache_info : Option CacheInfo
deriving DecidableEq, Repr

/-- What the shared disk cache stores: Tier-2 full entries under request
keys, Tier-3 single field values under `field:`-prefixed keys. -/
inductive DiskVal where
  | entry (e : CacheEntry)
  | field (v : Val)
deriving DecidableEq, Repr

/-! ## CacheManager (`core/store/caching.py`) -/

/-- The mutable state of a `CacheManager`: the L1 ordered dict (head =
least recently used), the shared disk cache, the stats counters, and an
abstract clock standing in for `time.time()`. -/
structure CacheState where
  l1_memory_cache : List (String × CacheEntry)
  l2_disk_cache : List (String × DiskVal)
  l1_hits : Nat
  l2_hits : Nat
  l3_hits : Nat
  misses : Nat
  total_requests : Nat
  clock : Nat
deriving Repr

namespace CacheManager

def L1_MEMORY_MAX_SIZE : Nat := 100

/-- A freshly constructed `CacheManager`. -/
def init : CacheState :=
  { l1_memory_cache := [], l2_disk_cache := [], l1_hits := 0, l2_hits := 0,
    l3_hits := 0, misses := 0, total_requests := 0, clock := 0 }

/-- `_check_l1`: on a hit, move the binding to the most-recent end
(`move_to_end`) and return a top-level copy annotated with `_cache_info`. -/
def _check_l1 (st : CacheState) (key : String) :
    Option CacheEntry × CacheState :=
  match dictLookup st.l1_memory_cache key with
  | none => (none, st)
  | some e =>
      (some { e with cache_info := some { source := "L1_MEMORY" } },
       { st with l1_memory_cache :=
          st.l1_memory_cache.filter (fun kv => kv.1 != key) ++ [(key, e)] })

/-- `_check_l2`: a disk lookup under the request key.  A Tier-3 field value
can never sit under a request key (`l12_key_ne_l3_key` below), so that
match arm is unreachable. -/
def _check_l2 (st : CacheState) (key : String) : Option CacheEntry :=
  match dictLookup st.l2_disk_cache key with
  | some (.entry e) => some { e with cache_info := some { source := "L2_DISK" } }
  | some (.field _) => none
  | none => none

/-- The L1 insertion of `_add_to_l1`: write the binding, then pop the
least-recently-used item when over capacity. -/
def l1_insert (m : List (String × CacheEntry)) (key : String) (e : CacheEntry) :
    List (String × CacheEntry) :=
  if L1_MEMORY_MAX_SIZE < (dictInsert m key e).length then
    (dictInsert m key e).drop 1
  else dictInsert m key e

def _add_to_l1 (st : CacheState) (key : String) (e : CacheEntry) : CacheState :=
  { st with l1_memory_cache := l1_insert st.l1_memory_cache key e }

/-- One step of the Tier-3 field loop: accumulate the partial
data map and the found count.  A full Tier-2 entry can never sit under a
`field:` key (`l12_key_ne_l3_key` below), so only `.field` hits count. -/
def l3_step (st : CacheState) (pdf_bytes : Bytes) (label : String)
    (acc : List (String × Val) × Nat) (kv : String × String) :
    List (String × Val) × Nat :=
  match dictLookup st.l2_disk_cache
      (CacheKeyBuilder.generate_l3_field_key pdf_bytes label kv.1) with
  | some (.field v) => (dictInsert acc.1 kv.1 v, acc.2 + 1)
  | _ => (dictInsert acc.1 kv.1 .vnull, acc.2)

/-- The source's Tier-3 check (renamed here): look up every schema field
in Tier-3; return a
synthesised partial entry iff at least one but not all fields were found. -/
def _check_l3_partialEntry (st : CacheState) (pdf_bytes : Bytes) (label : String)
    (schema : List (String × String)) : Option CacheEntry :=
  let r := schema.foldl (l3_step st pdf_bytes label) ([], 0)
  if 0 < r.2 ∧ r.2 < schema.length then
    some { data := r.1, metadata := none, timestamp := none,
           cache_info := some { source := "L3_PARTIAL",
                                fields_found := some r.2,
                                fields_requested := some schema.length } }
  else none

/-- `CacheManager.get`: L1, then L2 (with promotion), then L3, else miss;
each path bumps its counter and `total_requests` is always bumped. -/
def get (st : CacheState) (pdf_bytes : Bytes) (label : String)
    (schema : List (String × String)) : Option CacheEntry × CacheState :=
  let st0 := { st with total_requests := st.total_requests + 1 }
  let full_key := CacheKeyBuilder.generate_l1_l2_key pdf_bytes label schema
  match _check_l1 st0 full_key with
  | (some e, st1) => (some e, { st1 with l1_hits := st1.l1_hits + 1 })
  | (none, st1) =>
      match _check_l2 st1 full_key with
      | some e =>
          let st2 := _add_to_l1 st1 full_key e
          (some e, { st2 with l2_hits := st2.l2_hits + 1 })
      | none =>
          match _check_l3_partialEntry st1 pdf_bytes label schema with
          | some e => (some e, { st1 with l3_hits := st1.l3_hits + 1 })
          | none => (none, { st1 with misses := st1.misses + 1 })

/-- `_store_l3_fields`: store every non-null field value under its
field key. -/
def _store_l3_fields (st : CacheState) (pdf_bytes : Bytes) (label : String)
    (result_data : List (String × Val)) : CacheState :=
  let store := fun (m : List (String × DiskVal)) (kv : String × Val) =>
    if kv.2 ≠ Val.vnull then
      dictInsert m (CacheKeyBuilder.generate_l3_field_key pdf_bytes label kv.1)
        (.field kv.2)
    else m
  { st with l2_disk_cache := result_data.foldl store st.l2_disk_cache }

/-- `CacheManager.set`: write the full entry to L1 and L2, then the
individual fields to L3. -/
def set (st : CacheState) (pdf_bytes : Bytes) (label : String)
    (schema : List (String × String)) (result_data : List (String × Val))
    (exec_metadata : PipelineMeta) : CacheState :=
  let full_key := CacheKeyBuilder.generate_l1_l2_key pdf_bytes label schema
  let entry : CacheEntry :=
    { data := result_data, metadata := some exec_metadata,
      timestamp := some st.clock, cache_info := none }
  let st1 := _add_to_l1 st full_key entry
  let st2 := { st1 with
    l2_disk_cache := dictInsert st1.l2_disk_cache full_key (.entry entry) }
  let st3 := _store_l3_fields st2 pdf_bytes label result_data
  { st3 with clock := st3.clock + 1 }

end CacheManager

/-- A single client-visible cache operation. -/
inductive CacheOp where
  | get (pdf_bytes : Bytes) (label : String) (schema : List (String × String))
  | set (pdf_bytes : Bytes) (label : String) (schema : List (String × String))
        (result_data : List (String × Val)) (exec_metadata : PipelineMeta)

def runCacheOp (st : CacheState) : CacheOp → CacheState
  | .get p l s => (CacheManager.get st p l s).2
  | .set p l s d m => CacheManager.set st p l s d m

def runCacheOps (st : CacheState) (ops : List CacheOp) : CacheState :=
  ops.foldl runCacheOp st

/-! ## Tier-2 request keys and Tier-3 field keys never collide

A request key starts with 64 hex digits, a field key with `field:`; they
differ at character 5.  This justifies reading the shared disk cache at a
request key as a full entry and at a field key as a field value. -/

theorem sha256_round_length (st : List Nat) (ki wi : Nat) :
    (sha256_round st ki wi).length = st.length := by
  rcases st with _ | ⟨a, _ | ⟨b, _ | ⟨c, _ | ⟨d, _ | ⟨e, _ | ⟨f, _ | ⟨g, _ | ⟨h, _ | ⟨i, rest⟩⟩⟩⟩⟩⟩⟩⟩⟩ <;>
    simp [sha256_round]

theorem foldl_round_length (l : List (Nat × Nat)) (st : List Nat) :
    (l.foldl (fun s kw => sha256_round s kw.1 kw.2) st).length = st.length := by
  induction l generalizing st with
  | nil => rfl
  | cons hd tl ih => simpa [sha256_round_length] using ih (sha256_round st hd.1 hd.2)

theorem sha256_compress_length (h : List Nat) (b : Bytes) :
    (sha256_compress h b).length = h.length := by
  simp [sha256_compress, foldl_round_length]

theorem foldl_compress_length (blocks : List Bytes) :
    ∀ hsh : List Nat, (blocks.foldl sha256_compress hsh).length = hsh.length := by
  induction blocks with
  | nil => intro hsh; rfl
  | cons hd tl ih =>
      intro hsh
      rw [List.foldl_cons, ih, sha256_compress_length]

theorem sha256words_length (msg : Bytes) : (sha256words msg).length = 8 := by
  unfold sha256words
  rw [foldl_compress_length]
  rfl

theorem getD_mem_of_default_mem {α : Type} (l : List α) (n : Nat) (d : α)
    (hd : d ∈ l) : l.getD n d ∈ l := by
  rw [List.getD_eq_getElem?_getD]
  cases h : l[n]? with
  | none => simpa using hd
  | some a => simpa using List.getElem?_mem h

theorem wordToHex_getD_five (w : Nat) :
    (wordToHex w).getD 5 ' ' = hexDigits.getD (w >>> 8 % 16) '0' := rfl

theorem sha256hex_char_five (msg : Bytes) :
    (sha256hex msg).toList.getD 5 ' ' ∈ hexDigits := by
  have hlen := sha256words_length msg
  obtain ⟨w, rest, hw⟩ :=
    List.exists_cons_of_ne_nil (l := sha256words msg)
      (by intro h; rw [h] at hlen; simp at hlen)
  have : (sha256hex msg).toList = wordToHex w ++
      (rest.foldr (fun wrd acc => wordToHex wrd ++ acc) []) := by
    simp [sha256hex, hw, String.toList]
  rw [this, List.getD_append _ _ _ _ (by simp [wordToHex]), wordToHex_getD_five]
  exact getD_mem_of_default_mem _ _ _ (by decide)

theorem l12_key_ne_l3_key (p : Bytes) (l : String) (s : List (String × String))
    (p' : Bytes) (l' : String) (f : String) :
    CacheKeyBuilder.generate_l1_l2_key p l s ≠
      CacheKeyBuilder.generate_l3_field_key p' l' f := by
  intro h
  have h5 := congrArg (fun str => str.toList.getD 5 ' ') h
  simp only at h5
  have hl : (CacheKeyBuilder.generate_l1_l2_key p l s).toList.getD 5 ' ' ∈ hexDigits := by
    have hsplit : (CacheKeyBuilder.generate_l1_l2_key p l s).toList =
        (sha256hex p).toList ++
          ((":" ++ l ++ ":" ++ CacheKeyBuilder._hash_schema s).toList) := by
      simp [CacheKeyBuilder.generate_l1_l2_key, CacheKeyBuilder._hash_content,
        String.toList, String.data_append]
    have hlen5 : 5 < (sha256hex p).toList.length := by
      have hws := sha256words_length p
      obtain ⟨w, rest, hw⟩ :=
        List.exists_cons_of_ne_nil (l := sha256words p)
          (by intro hh; rw [hh] at hws; simp at hws)
      have : (sha256hex p).toList = wordToHex w ++
          (rest.foldr (fun wrd acc => wordToHex wrd ++ acc) []) := by
        simp [sha256hex, hw, String.toList]
      rw [this]
      simp only [List.length_append, List.length_map, List.length_range, wordToHex]
      omega
    rw [hsplit, List.getD_append _ _ _ _ hlen5]
    exact sha256hex_char_five p
  have hr : (CacheKeyBuilder.generate_l3_field_key p' l' f).toList.getD 5 ' ' = ':' := by
    have hsplit : (CacheKeyBuilder.generate_l3_field_key p' l' f).toList =
        "field:".toList ++
          ((sha256hex p' ++ ":" ++ l' ++ ":" ++ f).toList) := by
      simp [CacheKeyBuilder.generate_l3_field_key, CacheKeyBuilder._hash_content,
        String.toList, String.data_append]
    rw [hsplit, List.getD_append _ _ _ _ (by decide)]
    decide
  rw [h5, hr] at hl
  exact absurd hl (by decide)

/-! ## Cache lemmas -/

theorem dictLookup_append_of_not_mem {α : Type} (m : List (String × α))
    (k : String) (v : α) (h : k ∉ dictKeys m) :
    dictLookup (m ++ [(k, v)]) k = some v := by
  induction m with
  | nil => simp [dictLookup]
  | cons hd tl ih =>
      rw [dictKeys_cons] at h
      have h1 : hd.1 ≠ k := fun he => h (List.mem_cons.mpr (Or.inl he.symm))
      have h2 : k ∉ dictKeys tl := fun hm => h (List.mem_cons.mpr (Or.inr hm))
      simp only [List.cons_append, dictLookup, h1, if_false]
      exact ih h2

theorem dictInsert_eq_append_of_not_mem {α : Type} (m : List (String × α))
    (k : String) (v : α) (h : k ∉ dictKeys m) :
    dictInsert m k v = m ++ [(k, v)] := by
  induction m with
  | nil => simp [dictInsert]
  | cons hd tl ih =>
      rw [dictKeys_cons] at h
      have h1 : hd.1 ≠ k := fun he => h (List.mem_cons.mpr (Or.inl he.symm))
      have h2 : k ∉ dictKeys tl := fun hm => h (List.mem_cons.mpr (Or.inr hm))
      simp [dictInsert, h1, ih h2]

namespace CacheManager

/-- The LRU write keeps the key it just wrote whenever the cache was within
its capacity beforehand. -/
theorem dictLookup_l1_insert (m : List (String × CacheEntry)) (k : String)
    (e : CacheEntry) (h : m.length ≤ L1_MEMORY_MAX_SIZE) :
    dictLookup (l1_insert m k e) k = some e := by
  by_cases hm : k ∈ dictKeys m
  · have hlen : (dictInsert m k e).length = m.length :=
      dictInsert_length_of_mem _ _ _ hm
    have hif : ¬ (L1_MEMORY_MAX_SIZE < (dictInsert m k e).length) := by
      rw [hlen]; omega
    simp [l1_insert, hif, dictLookup_dictInsert_self]
  · have happ : dictInsert m k e = m ++ [(k, e)] :=
      dictInsert_eq_append_of_not_mem _ _ _ hm
    by_cases hfull : L1_MEMORY_MAX_SIZE < (dictInsert m k e).length
    · have hpos : 1 ≤ m.length := by
        rw [dictInsert_length_of_not_mem _ _ _ hm] at hfull
        simp [L1_MEMORY_MAX_SIZE] at hfull
        omega
      have hdropkeys : k ∉ dictKeys (m.drop 1) := by
        intro hmem
        exact hm (((List.drop_sublist 1 m).map Prod.fst).subset hmem)
      simp only [l1_insert, hfull, if_true]
      rw [happ, List.drop_append_of_le_length hpos]
      exact dictLookup_append_of_not_mem _ _ _ hdropkeys
    · simp [l1_insert, hfull, dictLookup_dictInsert_self]

/-- The LRU write never exceeds the capacity if it was respected before. -/
theorem l1_insert_length_le (m : List (String × CacheEntry)) (k : String)
    (e : CacheEntry) (h : m.length ≤ L1_MEMORY_MAX_SIZE) :
    (l1_insert m k e).length ≤ L1_MEMORY_MAX_SIZE := by
  have hle : (dictInsert m k e).length ≤ m.length + 1 := by
    by_cases hm : k ∈ dictKeys m
    · rw [dictInsert_length_of_mem _ _ _ hm]; omega
    · rw [dictInsert_length_of_not_mem _ _ _ hm]
  unfold l1_insert
  by_cases hfull : L1_MEMORY_MAX_SIZE < (dictInsert m k e).length
  · rw [if_pos hfull, List.length_drop]
    omega
  · rw [if_neg hfull]
    omega

/-- Moving a present key to the most-recent end does not grow the dict. -/
theorem move_to_end_length_le (m : List (String × CacheEntry)) (k : String)
    (e : CacheEntry) (hm : dictLookup m k = some e) :
    (m.filter (fun kv => kv.1 != k) ++ [(k, e)]).length ≤ m.length := by
  have hkmem : ∃ kv ∈ m, kv.1 = k := by
    induction m with
    | nil => simp [dictLookup] at hm
    | cons hd tl ih =>
        by_cases hhd : hd.1 = k
        · exact ⟨hd, List.mem_cons_self _ _, hhd⟩
        · simp only [dictLookup, hhd, if_false] at hm
          obtain ⟨kv, hkv1, hkv2⟩ := ih hm
          exact ⟨kv, List.mem_cons_of_mem _ hkv1, hkv2⟩
  obtain ⟨kv, hkv1, hkv2⟩ := hkmem
  have hlt : (m.filter (fun kv => kv.1 != k)).length < m.length := by
    refine List.length_filter_lt_length_iff_exists.mpr ⟨kv, hkv1, ?_⟩
    simp [hkv2]
  simp only [List.length_append, List.length_cons, List.length_nil]
  omega

/-- `get` keeps the Tier-1 cache within its capacity. -/
theorem get_preserves_l1_bound (st : CacheState) (pdf_bytes : Bytes)
    (label : String) (schema : List (String × String))
    (h : st.l1_memory_cache.length ≤ L1_MEMORY_MAX_SIZE) :
    ((get st pdf_bytes label schema).2).l1_memory_cache.length ≤
      L1_MEMORY_MAX_SIZE := by
  unfold get _check_l1
  cases h1 : dictLookup st.l1_memory_cache
      (CacheKeyBuilder.generate_l1_l2_key pdf_bytes label schema) with
  | some e =>
      simp only [h1]
      exact le_trans (move_to_end_length_le _ _ _ h1) h
  | none =>
      simp only [h1]
      cases h2 : _check_l2 { st with total_requests := st.total_requests + 1 }
          (CacheKeyBuilder.generate_l1_l2_key pdf_bytes label schema) with
      | some e =>
          simp only [h2, _add_to_l1]
          exact l1_insert_length_le _ _ _ h
      | none =>
          simp only [h2]
          cases h3 : _check_l3_partialEntry { st with total_requests := st.total_requests + 1 }
              pdf_bytes label schema with
          | some e => simp only [h3]; exact h
          | none => simp only [h3]; exact h

/-- `set` keeps the Tier-1 cache within its capacity. -/
theorem set_preserves_l1_bound (st : CacheState) (pdf_bytes : Bytes)
    (label : String) (schema : List (String × String))
    (result_data : List (String × Val)) (exec_metadata : PipelineMeta)
    (h : st.l1_memory_cache.length ≤ L1_MEMORY_MAX_SIZE) :
    ((set st pdf_bytes label schema result_data exec_metadata)).l1_memory_cache.length ≤
      L1_MEMORY_MAX_SIZE := by
  unfold set _store_l3_fields _add_to_l1
  exact l1_insert_length_le _ _ _ h

end CacheManager

/-- Claim C8: after any sequence of `get`/`set` operations from a fresh
cache, the Tier-1 in-memory cache holds at most `L1_MEMORY_MAX_SIZE`
(100) entries. -/
theorem l1_size_invariant (ops : List CacheOp) :
    (runCacheOps CacheManager.init ops).l1_memory_cache.length ≤
      CacheManager.L1_MEMORY_MAX_SIZE := by
  have general : ∀ (ops : List CacheOp) (st : CacheState),
      st.l1_memory_cache.length ≤ CacheManager.L1_MEMORY_MAX_SIZE →
      (runCacheOps st ops).l1_memory_cache.length ≤
        CacheManager.L1_MEMORY_MAX_SIZE := by
    intro ops
    induction ops with
    | nil => intro st h; exact h
    | cons op rest ih =>
        intro st h
        cases op with
        | get p l s =>
            exact ih _ (CacheManager.get_preserves_l1_bound st p l s h)
        | set p l s d m =>
            exact ih _ (CacheManager.set_preserves_l1_bound st p l s d m h)
  exact general ops CacheManager.init (by simp [CacheManager.init])

/-- Claim C9: every `get` bumps `total_requests` by one and exactly one of
the four outcome counters; all five counters are monotone, and the
equality `total_requests = l1_hits + l2_hits + l3_hits + misses` is
preserved. -/
theorem get_stats_accounting (st : CacheState) (pdf_bytes : Bytes)
    (label : String) (schema : List (String × String)) :
    ((CacheManager.get st pdf_bytes label schema).2).total_requests =
        st.total_requests + 1 ∧
    ((CacheManager.get st pdf_bytes label schema).2).l1_hits +
        ((CacheManager.get st pdf_bytes label schema).2).l2_hits +
        ((CacheManager.get st pdf_bytes label schema).2).l3_hits +
        ((CacheManager.get st pdf_bytes label schema).2).misses =
      st.l1_hits + st.l2_hits + st.l3_hits + st.misses + 1 ∧
    (((CacheManager.get st pdf_bytes label schema).2).l1_hits = st.l1_hits ∨
      ((CacheManager.get st pdf_bytes label schema).2).l1_hits = st.l1_hits + 1) ∧
    (((CacheManager.get st pdf_bytes label schema).2).l2_hits = st.l2_hits ∨
      ((CacheManager.get st pdf_bytes label schema).2).l2_hits = st.l2_hits + 1) ∧
    (((CacheManager.get st pdf_bytes label schema).2).l3_hits = st.l3_hits ∨
      ((CacheManager.get st pdf_bytes label schema).2).l3_hits = st.l3_hits + 1) ∧
    (((CacheManager.get st pdf_bytes label schema).2).misses = st.misses ∨
      ((CacheManager.get st pdf_bytes label schema).2).misses = st.misses + 1) ∧
    (st.total_requests = st.l1_hits + st.l2_hits + st.l3_hits + st.misses →
      ((CacheManager.get st pdf_bytes label schema).2).total_requests =
        ((CacheManager.get st pdf_bytes label schema).2).l1_hits +
          ((CacheManager.get st pdf_bytes label schema).2).l2_hits +
          ((CacheManager.get st pdf_bytes label schema).2).l3_hits +
          ((CacheManager.get st pdf_bytes label schema).2).misses) := by
  unfold CacheManager.get CacheManager._check_l1
  cases h1 : dictLookup st.l1_memory_cache
      (CacheKeyBuilder.generate_l1_l2_key pdf_bytes label schema) with
  | some e => simp only [h1]; refine ⟨?_, ?_, ?_, ?_, ?_, ?_, ?_⟩ <;> (try simp) <;> (try omega)
  | none =>
      simp only [h1]
      cases h2 : CacheManager._check_l2 { st with total_requests := st.total_requests + 1 }
          (CacheKeyBuilder.generate_l1_l2_key pdf_bytes label schema) with
      | some e =>
          simp only [h2, CacheManager._add_to_l1]
          refine ⟨?_, ?_, ?_, ?_, ?_, ?_, ?_⟩ <;> (try simp) <;> (try omega)
      | none =>
          simp only [h2]
          cases h3 : CacheManager._check_l3_partialEntry
              { st with total_requests := st.total_requests + 1 } pdf_bytes label schema with
          | some e =>
              simp only [h3]
              refine ⟨?_, ?_, ?_, ?_, ?_, ?_, ?_⟩ <;> (try simp) <;> (try omega)
          | none =>
              simp only [h3]
              refine ⟨?_, ?_, ?_, ?_, ?_, ?_, ?_⟩ <;> (try simp) <;> (try omega)

/-- Witness for C9 at a concrete state. -/
theorem get_stats_accounting_witness :
    ((CacheManager.get CacheManager.init [] "carteira_oab" [("nome", "n")]).2).total_requests =
        CacheManager.init.total_requests + 1 ∧
    ((CacheManager.get CacheManager.init [] "carteira_oab" [("nome", "n")]).2).l1_hits +
        ((CacheManager.get CacheManager.init [] "carteira_oab" [("nome", "n")]).2).l2_hits +
        ((CacheManager.get CacheManager.init [] "carteira_oab" [("nome", "n")]).2).l3_hits +
        ((CacheManager.get CacheManager.init [] "carteira_oab" [("nome", "n")]).2).misses =
      CacheManager.init.l1_hits + CacheManager.init.l2_hits +
        CacheManager.init.l3_hits + CacheManager.init.misses + 1 ∧
    (((CacheManager.get CacheManager.init [] "carteira_oab" [("nome", "n")]).2).l1_hits =
        CacheManager.init.l1_hits ∨
      ((CacheManager.get CacheManager.init [] "carteira_oab" [("nome", "n")]).2).l1_hits =
        CacheManager.init.l1_hits + 1) ∧
    (((CacheManager.get CacheManager.init [] "carteira_oab" [("nome", "n")]).2).l2_hits =
        CacheManager.init.l2_hits ∨
      ((CacheManager.get CacheManager.init [] "carteira_oab" [("nome", "n")]).2).l2_hits =
        CacheManager.init.l2_hits + 1) ∧
    (((CacheManager.get CacheManager.init [] "carteira_oab" [("nome", "n")]).2).l3_hits =
        CacheManager.init.l3_hits ∨
      ((CacheManager.get CacheManager.init [] "carteira_oab" [("nome", "n")]).2).l3_hits =
        CacheManager.init.l3_hits + 1) ∧
    (((CacheManager.get CacheManager.init [] "carteira_oab" [("nome", "n")]).2).misses =
        CacheManager.init.misses ∨
      ((CacheManager.get CacheManager.init [] "carteira_oab" [("nome", "n")]).2).misses =
        CacheManager.init.misses + 1) ∧
    (CacheManager.init.total_requests = CacheManager.init.l1_hits +
        CacheManager.init.l2_hits + CacheManager.init.l3_hits + CacheManager.init.misses →
      ((CacheManager.get CacheManager.init [] "carteira_oab" [("nome", "n")]).2).total_requests =
        ((CacheManager.get CacheManager.init [] "carteira_oab" [("nome", "n")]).2).l1_hits +
          ((CacheManager.get CacheManager.init [] "carteira_oab" [("nome", "n")]).2).l2_hits +
          ((CacheManager.get CacheManager.init [] "carteira_oab" [("nome", "n")]).2).l3_hits +
          ((CacheManager.get CacheManager.init [] "carteira_oab" [("nome", "n")]).2).misses) :=
  get_stats_accounting CacheManager.init [] "carteira_oab" [("nome", "n")]

/-- Claim C7: immediately after `set`, a `get` with the same PDF bytes,
label and schema is an L1 hit whose `data` is exactly the stored result. -/
theorem cache_set_then_get (st : CacheState) (pdf_bytes : Bytes) (label : String)
    (schema : List (String × String)) (result_data : List (String × Val))
    (exec_metadata : PipelineMeta)
    (h : st.l1_memory_cache.length ≤ CacheManager.L1_MEMORY_MAX_SIZE) :
    Option.map CacheEntry.data
        ((CacheManager.get
            (CacheManager.set st pdf_bytes label schema result_data exec_metadata)
            pdf_bytes label schema).1) = some result_data ∧
    Option.map CacheEntry.cache_info
        ((CacheManager.get
            (CacheManager.set st pdf_bytes label schema result_data exec_metadata)
            pdf_bytes label schema).1) = some (some { source := "L1_MEMORY" }) := by
  have hlook := CacheManager.dictLookup_l1_insert st.l1_memory_cache
    (CacheKeyBuilder.generate_l1_l2_key pdf_bytes label schema)
    { data := result_data, metadata := some exec_metadata,
      timestamp := some st.clock, cache_info := none } h
  have hl1 : (CacheManager.set st pdf_bytes label schema result_data
      exec_metadata).l1_memory_cache =
      CacheManager.l1_insert st.l1_memory_cache
        (CacheKeyBuilder.generate_l1_l2_key pdf_bytes label schema)
        { data := result_data, metadata := some exec_metadata,
          timestamp := some st.clock, cache_info := none } := rfl
  unfold CacheManager.get CacheManager._check_l1
  simp only [hl1, hlook]
  exact ⟨rfl, rfl⟩

/-- Witness for C7 at a concrete state and request. -/
theorem cache_set_then_get_witness :
    CacheManager.init.l1_memory_cache.length ≤ CacheManager.L1_MEMORY_MAX_SIZE ∧
    (Option.map CacheEntry.data
        ((CacheManager.get
            (CacheManager.set CacheManager.init [0] "carteira_oab" [("nome", "n")]
              [("nome", Val.vstr "JOANA")] { method := "llm-full", steps := ["llm-full"] })
            [0] "carteira_oab" [("nome", "n")]).1) = some [("nome", Val.vstr "JOANA")] ∧
      Option.map CacheEntry.cache_info
        ((CacheManager.get
            (CacheManager.set CacheManager.init [0] "carteira_oab" [("nome", "n")]
              [("nome", Val.vstr "JOANA")] { method := "llm-full", steps := ["llm-full"] })
            [0] "carteira_oab" [("nome", "n")]).1) = some (some { source := "L1_MEMORY" })) :=
  ⟨by decide,
    cache_set_then_get CacheManager.init [0] "carteira_oab" [("nome", "n")]
      [("nome", Val.vstr "JOANA")] { method := "llm-full", steps := ["llm-full"] }
      (by decide)⟩

/-- Does this optional disk value hold a full Tier-2 entry? -/
def isEntryHit : Option DiskVal → Bool
  | some (.entry _) => true
  | _ => false

/-- Does this optional disk value hold a Tier-3 field value? -/
def isFieldHit : Option DiskVal → Bool
  | some (.field _) => true
  | _ => false

/-- When every schema field is found in Tier-3, the fold counts them all. -/
theorem l3_fold_count_all_found (st : CacheState) (pdf_bytes : Bytes)
    (label : String) :
    ∀ (schema : List (String × String)) (acc : List (String × Val) × Nat),
      (∀ kv ∈ schema, isFieldHit (dictLookup st.l2_disk_cache
        (CacheKeyBuilder.generate_l3_field_key pdf_bytes label kv.1)) = true) →
      (schema.foldl (CacheManager.l3_step st pdf_bytes label) acc).2 =
        acc.2 + schema.length := by
  intro schema
  induction schema with
  | nil => intro acc _; simp
  | cons hd tl ih =>
      intro acc hall
      have hhd := hall hd (List.mem_cons_self _ _)
      have htl : ∀ kv ∈ tl, isFieldHit (dictLookup st.l2_disk_cache
          (CacheKeyBuilder.generate_l3_field_key pdf_bytes label kv.1)) = true :=
        fun kv hkv => hall kv (List.mem_cons_of_mem _ hkv)
      rw [List.foldl_cons]
      cases hv : dictLookup st.l2_disk_cache
          (CacheKeyBuilder.generate_l3_field_key pdf_bytes label hd.1) with
      | none => rw [hv] at hhd; simp [isFieldHit] at hhd
      | some dv =>
          cases dv with
          | entry e => rw [hv] at hhd; simp [isFieldHit] at hhd
          | field v =>
              rw [show CacheManager.l3_step st pdf_bytes label acc hd =
                  (dictInsert acc.1 hd.1 v, acc.2 + 1) by
                simp [CacheManager.l3_step, hv]]
              rw [ih _ htl]
              simp [List.length_cons]
              omega

/-- Claim C2 (amended): when the fingerprint misses Tier-1 and Tier-2 but
every field of the (non-empty) schema is found in Tier-3, `get` returns
`None` — a Miss, counted as such — rather than a Partial outcome. -/
theorem l3_all_found_is_miss (st : CacheState) (pdf_bytes : Bytes)
    (label : String) (schema : List (String × String))
    (h1 : dictLookup st.l1_memory_cache
      (CacheKeyBuilder.generate_l1_l2_key pdf_bytes label schema) = none)
    (h2 : isEntryHit (dictLookup st.l2_disk_cache
      (CacheKeyBuilder.generate_l1_l2_key pdf_bytes label schema)) = false)
    (h3 : ∀ kv ∈ schema, isFieldHit (dictLookup st.l2_disk_cache
      (CacheKeyBuilder.generate_l3_field_key pdf_bytes label kv.1)) = true) :
    (CacheManager.get st pdf_bytes label schema).1 = none ∧
    ((CacheManager.get st pdf_bytes label schema).2).misses = st.misses + 1 := by
  have hcount := l3_fold_count_all_found st pdf_bytes label schema ([], 0) h3
  have hl3 : CacheManager._check_l3_partialEntry
      { st with total_requests := st.total_requests + 1 } pdf_bytes label schema = none := by
    unfold CacheManager._check_l3_partialEntry CacheManager.l3_step
    unfold CacheManager.l3_step at hcount
    simp only at hcount ⊢
    rw [hcount]
    simp
  have hl2 : CacheManager._check_l2 { st with total_requests := st.total_requests + 1 }
      (CacheKeyBuilder.generate_l1_l2_key pdf_bytes label schema) = none := by
    unfold CacheManager._check_l2
    cases hv : dictLookup st.l2_disk_cache
        (CacheKeyBuilder.generate_l1_l2_key pdf_bytes label schema) with
    | none => simp [hv]
    | some dv =>
        cases dv with
        | entry e => rw [hv] at h2; simp [isEntryHit] at h2
        | field v => simp [hv]
  unfold CacheManager.get CacheManager._check_l1
  simp only [h1, hl2, hl3]
  simp

/-- Counterexample for C2 as stated: a concrete state whose Tier-3 holds
every schema field while Tier-1/Tier-2 miss; `get` returns `None` (a Miss
with the miss counter bumped), not a Partial outcome. -/
theorem l3_all_found_counterexample :
    isFieldHit (dictLookup
        [(CacheKeyBuilder.generate_l3_field_key [] "x" "nome", DiskVal.field (Val.vstr "v"))]
        (CacheKeyBuilder.generate_l3_field_key [] "x" "nome")) = true ∧
    (CacheManager.get
        { CacheManager.init with l2_disk_cache :=
            [(CacheKeyBuilder.generate_l3_field_key [] "x" "nome",
              DiskVal.field (Val.vstr "v"))] }
        [] "x" [("nome", "d")]).1 = none ∧
    ((CacheManager.get
        { CacheManager.init with l2_disk_cache :=
            [(CacheKeyBuilder.generate_l3_field_key [] "x" "nome",
              DiskVal.field (Val.vstr "v"))] }
        [] "x" [("nome", "d")]).2).misses = 1 := by
  refine ⟨by decide, ?_, ?_⟩ <;> decide

/-- Witness for C2 (amended) at the same concrete state. -/
theorem l3_all_found_is_miss_witness :
    (dictLookup (CacheState.l1_memory_cache
        { CacheManager.init with l2_disk_cache :=
            [(CacheKeyBuilder.generate_l3_field_key [] "x" "nome",
              DiskVal.field (Val.vstr "v"))] })
      (CacheKeyBuilder.generate_l1_l2_key [] "x" [("nome", "d")]) = none ∧
    isEntryHit (dictLookup
        [(CacheKeyBuilder.generate_l3_field_key [] "x" "nome",
          DiskVal.field (Val.vstr "v"))]
        (CacheKeyBuilder.generate_l1_l2_key [] "x" [("nome", "d")])) = false ∧
    (∀ kv ∈ ([("nome", "d")] : List (String × String)),
      isFieldHit (dictLookup
        [(CacheKeyBuilder.generate_l3_field_key [] "x" "nome",
          DiskVal.field (Val.vstr "v"))]
        (CacheKeyBuilder.generate_l3_field_key [] "x" kv.1)) = true)) ∧
    ((CacheManager.get
        { CacheManager.init with l2_disk_cache :=
            [(CacheKeyBuilder.generate_l3_field_key [] "x" "nome",
              DiskVal.field (Val.vstr "v"))] }
        [] "x" [("nome", "d")]).1 = none ∧
      ((CacheManager.get
        { CacheManager.init with l2_disk_cache :=
            [(CacheKeyBuilder.generate_l3_field_key [] "x" "nome",
              DiskVal.field (Val.vstr "v"))] }
        [] "x" [("nome", "d")]).2).misses =
        (CacheState.misses { CacheManager.init with l2_disk_cache :=
            [(CacheKeyBuilder.generate_l3_field_key [] "x" "nome",
              DiskVal.field (Val.vstr "v"))] }) + 1) :=
  ⟨⟨by decide, by decide, by decide⟩,
    l3_all_found_is_miss _ [] "x" [("nome", "d")] (by decide) (by decide) (by decide)⟩

/-! ## Positioned tokens and the StructuralMatcher
(`core/learning/struct_matcher.py`) -/

/-- A positioned text span produced by the PDF tokeniser
(`_get_rich_elements`).  Coordinates are exact rationals standing in for
Python floats; `category` is absent from tokeniser output, hence
defaulted to the empty string as `elem.get('category', '')` yields. -/
structure Elem where
  text : String
  x : ℚ
  y : ℚ
  page_width : ℚ := 612
  page_height : ℚ := 792
  category : String := ""
deriving DecidableEq, Repr

/-- A raised Python exception. -/
inductive PyError where
  | attributeError
  | keyError
deriving DecidableEq, Repr

namespace StructuralMatcher

def JACCARD_MATCH_THRESHOLD : ℚ := 80 / 100

/-- The fixed label vocabulary (the source's set literal repeats `data`
and `valor`; as a set it has these members exactly once). -/
def KNOWN_LABELS : List String :=
  ["nome", "inscricao", "seccional", "subsecao", "categoria",
   "endereço", "telefone", "situacao", "data", "sistema", "produto",
   "valor", "quantidade", "tipo", "cidade", "referencia", "cpf",
   "cnpj", "cep", "email", "hora", "total",
   "subtotal", "descontos", "emissao", "vencimento", "pagamento",
   "banco", "agencia", "conta", "favorecido", "documento",
   "numero do documento", "endereco de entrega", "forma de pagamento"]

/-- Python `str.lower()` followed by NFD decomposition dropping combining
marks, folded into one character map for the precomposed Latin letters the
documents use. -/
def normChar (c : Char) : Char :=
  if c ∈ ['Á', 'À', 'Â', 'Ã', 'Ä', 'á', 'à', 'â', 'ã', 'ä'] then 'a'
  else if c ∈ ['É', 'È', 'Ê', 'Ë', 'é', 'è', 'ê', 'ë'] then 'e'
  else if c ∈ ['Í', 'Ì', 'Î', 'Ï', 'í', 'ì', 'î', 'ï'] then 'i'
  else if c ∈ ['Ó', 'Ò', 'Ô', 'Õ', 'Ö', 'ó', 'ò', 'ô', 'õ', 'ö'] then 'o'
  else if c ∈ ['Ú', 'Ù', 'Û', 'Ü', 'ú', 'ù', 'û', 'ü'] then 'u'
  else if c ∈ ['Ç', 'ç'] then 'c'
  else if c ∈ ['Ñ', 'ñ'] then 'n'
  else c.toLower

/-- `_normalize_text`: lowercase, strip diacritics, drop one trailing
colon, strip whitespace. -/
def _normalize_text (text : String) : String :=
  let lowered := text.toList.map normChar
  let decoloned := if lowered.getLast? = some ':' then lowered.dropLast else lowered
  (String.mk decoloned).trim

/-- Python `str.split()`: split on whitespace runs, drop empties. -/
def pySplitWs (s : String) : List String :=
  (s.split fun c => c.isWhitespace).filter (fun t => t ≠ "")

/-- The nested `token_similarity` helper of `extract_signature`. -/
def token_similarity (a b : String) : ℚ :=
  let ta := (pySplitWs a).dedup
  let tb := (pySplitWs b).dedup
  if ta.isEmpty ∧ tb.isEmpty then 0
  else
    let inter := ta.filter (fun x => x ∈ tb)
    let uni := ta ++ tb.filter (fun x => x ∉ ta)
    (inter.length : ℚ) / (uni.length : ℚ)

def domain_keywords : List String :=
  ["nome", "endereco", "telefone", "cpf", "cnpj", "email", "valor", "data",
   "vencimento", "total", "subtotal"]

def stopwords : List String :=
  ["de", "do", "da", "dos", "das", "e", "ou", "para", "com", "em", "por"]

/-- Python substring test `a in b`. -/
def strContains (b a : String) : Bool := decide (a.toList <:+: b.toList)

/-- Python set `add`: append if absent. -/
def sigAdd (sig : List String) (s : String) : List String :=
  if s ∈ sig then sig else sig ++ [s]

/-- The character class of `re.fullmatch(r'[\d\.,\-\/R\$ %]+', text)`. -/
def numericJunkChar (c : Char) : Bool :=
  c.isDigit || c ∈ ['.', ',', '-', '/', 'R', '$', ' ', '%']

/-- The heuristic score `extract_signature` assigns to a candidate label. -/
def candidate_score (e : Elem) (normalized : String) : ℚ :=
  let kwScore : ℚ := domain_keywords.foldl
    (fun acc kw => if strContains normalized kw then acc + 2 else acc) 0
  let tokens := pySplitWs normalized
  let lenScore : ℚ :=
    if tokens.length = 1 then 12 / 10
    else if tokens.length ≤ 3 then 8 / 10
    else 0
  let digitPenalty : ℚ := if normalized.toList.any Char.isDigit then -2 else 0
  let stopRatio : ℚ :=
    ((tokens.filter (fun t => t ∈ stopwords)).length : ℚ) /
      ((max 1 tokens.length : Nat) : ℚ)
  let stopPenalty : ℚ := if 1 / 2 < stopRatio then -1 else 0
  let catBonus : ℚ := if e.category ≠ "" then 3 / 10 else 0
  kwScore + lenScore + digitPenalty + stopPenalty + catBonus

/-- One iteration of the `extract_signature` element loop, acting on the
pair (signature so far, candidate list so far). -/
def extract_sig_step (acc : List String × List (String × ℚ)) (e : Elem) :
    List String × List (String × ℚ) :=
  let sig := acc.1
  let cands := acc.2
  let text := e.text.trim
  if text = "" then acc
  else
    let normalized := _normalize_text text
    if normalized ∈ KNOWN_LABELS then (sigAdd sig normalized, cands)
    else if text.toList ≠ [] ∧ text.toList.all numericJunkChar then acc
    else if 4 < (pySplitWs normalized).length then acc
    else if ¬(2 ≤ normalized.length ∧ normalized.length ≤ 50) then acc
    else if 1 / 5 < (((normalized.toList.filter Char.isDigit).length : ℚ) /
        ((max 1 normalized.length : Nat) : ℚ)) then acc
    else if sig.any (fun s => decide (3 / 4 < token_similarity normalized s)) then acc
    else if text.toList.getLast? = some ':' then (sigAdd sig normalized, cands)
    else
      let score := candidate_score e normalized
      if 0 < score then (sig, cands ++ [(normalized, score)]) else acc

/-- Ordering of the final candidate sort: score descending, then label
length ascending (the Python key `(-score, len(label))`). -/
def cand_le (a b : String × ℚ) : Bool :=
  decide (b.2 < a.2 ∨ (a.2 = b.2 ∧ a.1.length ≤ b.1.length))

/-- After the element loop: sort the candidates by `(-score, len)` and add
the best one when it clears the 1.5 threshold and is genuinely new. -/
def sig_finalize (r : List String × List (String × ℚ)) : List String :=
  match r.2.mergeSort cand_le with
  | [] => r.1
  | best :: _ =>
      if 3 / 2 ≤ best.2 ∧ best.1 ∉ KNOWN_LABELS ∧ best.1 ∉ r.1 then
        r.1 ++ [best.1]
      else r.1

/-- `StructuralMatcher.extract_signature`: collect known labels and
colon-terminated captions, then add at most one best-scoring new label. -/
def extract_signature (elements : List Elem) : List String :=
  sig_finalize (elements.foldl extract_sig_step ([], []))

/-- The first argument the orchestrator hands to `check_similarity` is
dynamically typed: meant to be a set of labels, but actually the raw token
list.  Calling a set method on the latter raises `AttributeError`. -/
inductive PySetLike where
  | strSet (s : List String)
  | elemList (l : List Elem)
deriving Repr

/-- `set.intersection` / `set.union` based Jaccard similarity.  On a Python
list argument the `.intersection` attribute access raises. -/
def _calculate_jaccard_similarity (set1 : PySetLike) (set2 : List String) :
    Except PyError ℚ :=
  match set1 with
  | .elemList _ => .error .attributeError
  | .strSet s =>
      let inter := s.filter (fun x => x ∈ set2)
      let uni := s ++ set2.filter (fun x => x ∉ s)
      if uni.isEmpty then .ok 0
      else .ok ((inter.length : ℚ) / (uni.length : ℚ))

/-- `check_similarity`: convert the stored signature list to a set, compute
Jaccard similarity, compare against the 0.80 threshold. -/
def check_similarity (new_signature : PySetLike)
    (template_signature_list : List String) : Except PyError (Bool × ℚ) := do
  let score ← _calculate_jaccard_similarity new_signature
    template_signature_list.dedup
  .ok (decide (JACCARD_MATCH_THRESHOLD ≤ score), score)

end StructuralMatcher

/-! ## Theorems about `extract_signature` -/

namespace StructuralMatcher

theorem mem_sigAdd (sig : List String) (s l : String) (h : l ∈ sigAdd sig s) :
    l ∈ sig ∨ l = s := by
  by_cases hmem : s ∈ sig
  · simp [sigAdd, hmem] at h; exact Or.inl h
  · simp only [sigAdd, hmem, if_false] at h
    rcases List.mem_append.mp h with h | h
    · exact Or.inl h
    · exact Or.inr (List.mem_singleton.mp h)

theorem sigAdd_subset (sig : List String) (s : String) : sig ⊆ sigAdd sig s := by
  by_cases hmem : s ∈ sig
  · simp [sigAdd, hmem]
  · simp only [sigAdd, hmem, if_false]
    exact List.subset_append_left _ _

theorem mem_sigAdd_self (sig : List String) (s : String) : s ∈ sigAdd sig s := by
  by_cases hmem : s ∈ sig
  · simp [sigAdd, hmem]
  · simp [sigAdd, hmem]

theorem extract_sig_step_sig_subset (acc : List String × List (String × ℚ))
    (e : Elem) : acc.1 ⊆ (extract_sig_step acc e).1 := by
  intro l hl
  simp only [extract_sig_step]
  split_ifs <;> first
    | exact hl
    | exact sigAdd_subset _ _ hl

theorem extract_sig_step_sig_prov (acc : List String × List (String × ℚ))
    (e : Elem) (l : String) (hl : l ∈ (extract_sig_step acc e).1) :
    l ∈ acc.1 ∨ l = _normalize_text e.text.trim := by
  simp only [extract_sig_step] at hl
  split_ifs at hl <;> first
    | exact Or.inl hl
    | exact mem_sigAdd _ _ _ hl

theorem extract_sig_step_cand_prov (acc : List String × List (String × ℚ))
    (e : Elem) (c : String × ℚ) (hc : c ∈ (extract_sig_step acc e).2) :
    c ∈ acc.2 ∨ c.1 = _normalize_text e.text.trim := by
  simp only [extract_sig_step] at hc
  split_ifs at hc <;> first
    | exact Or.inl hc
    | (rcases List.mem_append.mp hc with h | h
       · exact Or.inl h
       · exact Or.inr (congrArg Prod.fst (List.mem_singleton.mp h)))

theorem extract_sig_step_prov (acc : List String × List (String × ℚ)) (e : Elem) :
    (∀ l ∈ (extract_sig_step acc e).1,
      l ∈ acc.1 ∨ l = _normalize_text e.text.trim) ∧
    (∀ c ∈ (extract_sig_step acc e).2,
      c ∈ acc.2 ∨ c.1 = _normalize_text e.text.trim) :=
  ⟨fun l hl => extract_sig_step_sig_prov acc e l hl,
   fun c hc => extract_sig_step_cand_prov acc e c hc⟩

theorem foldl_sig_subset (es : List Elem) :
    ∀ acc : List String × List (String × ℚ),
      acc.1 ⊆ (es.foldl extract_sig_step acc).1 := by
  induction es with
  | nil => intro acc; exact List.Subset.refl _
  | cons hd tl ih =>
      intro acc
      rw [List.foldl_cons]
      exact (extract_sig_step_sig_subset acc hd).trans (ih _)

theorem foldl_prov (es : List Elem) :
    ∀ acc : List String × List (String × ℚ),
      (∀ l ∈ (es.foldl extract_sig_step acc).1,
        l ∈ acc.1 ∨ ∃ e ∈ es, l = _normalize_text e.text.trim) ∧
      (∀ c ∈ (es.foldl extract_sig_step acc).2,
        c ∈ acc.2 ∨ ∃ e ∈ es, c.1 = _normalize_text e.text.trim) := by
  induction es with
  | nil => intro acc; exact ⟨fun l hl => Or.inl hl, fun c hc => Or.inl hc⟩
  | cons hd tl ih =>
      intro acc
      rw [List.foldl_cons]
      obtain ⟨ih1, ih2⟩ := ih (extract_sig_step acc hd)
      obtain ⟨hs1, hs2⟩ := extract_sig_step_prov acc hd
      constructor
      · intro l hl
        rcases ih1 l hl with h | ⟨e, he, hne⟩
        · rcases hs1 l h with h' | h'
          · exact Or.inl h'
          · exact Or.inr ⟨hd, List.mem_cons_self _ _, h'⟩
        · exact Or.inr ⟨e, List.mem_cons_of_mem _ he, hne⟩
      · intro c hc
        rcases ih2 c hc with h | ⟨e, he, hne⟩
        · rcases hs2 c h with h' | h'
          · exact Or.inl h'
          · exact Or.inr ⟨hd, List.mem_cons_self _ _, h'⟩
        · exact Or.inr ⟨e, List.mem_cons_of_mem _ he, hne⟩

theorem foldl_collects_known (es : List Elem) :
    ∀ (acc : List String × List (String × ℚ)) (e : Elem), e ∈ es →
      e.text.trim ≠ "" → _normalize_text e.text.trim ∈ KNOWN_LABELS →
      _normalize_text e.text.trim ∈ (es.foldl extract_sig_step acc).1 := by
  induction es with
  | nil => intro _ _ h; simp at h
  | cons hd tl ih =>
      intro acc e he hne hknown
      rw [List.foldl_cons]
      rcases List.mem_cons.mp he with he | he
      · subst he
        have hstep : _normalize_text e.text.trim ∈ (extract_sig_step acc e).1 := by
          simp only [extract_sig_step]
          rw [if_neg hne, if_pos hknown]
          exact mem_sigAdd_self _ _
        exact foldl_sig_subset tl _ hstep
      · exact ih _ e he hne hknown

theorem sig_finalize_subset (r : List String × List (String × ℚ)) :
    r.1 ⊆ sig_finalize r := by
  unfold sig_finalize
  split
  · exact List.Subset.refl _
  · split_ifs
    · exact List.subset_append_left _ _
    · exact List.Subset.refl _

theorem sig_finalize_prov (r : List String × List (String × ℚ)) :
    ∀ l ∈ sig_finalize r, l ∈ r.1 ∨ ∃ b ∈ r.2, l = b.1 := by
  unfold sig_finalize
  split
  · intro l hl; exact Or.inl hl
  · next best rest heq =>
      split_ifs
      · intro l hl
        rcases List.mem_append.mp hl with h | h
        · exact Or.inl h
        · have hbest : best ∈ r.2 :=
            (List.mergeSort_perm r.2 cand_le).subset
              (heq ▸ List.mem_cons_self best rest)
          exact Or.inr ⟨best, hbest, List.mem_singleton.mp h⟩
      · intro l hl; exact Or.inl hl

end StructuralMatcher

/-- Counterexample for C4 as stated: a single token `Matricula:` yields the
signature `matricula`, which is not in `KNOWN_LABELS`, so the returned set
is neither a subset of the vocabulary nor the set of vocabulary labels
occurring in the document text. -/
theorem extract_signature_counterexample :
    StructuralMatcher.extract_signature [{ text := "Matricula:", x := 0, y := 0 }] =
      ["matricula"] ∧
    "matricula" ∉ StructuralMatcher.KNOWN_LABELS := by
  constructor
  · with_unfolding_all decide
  · decide

/-- Claim C4 (amended): every member of the signature is the normalised
(stripped) text of some input element — `KNOWN_LABELS` members, colon
captions and at most one heuristic candidate, not generally a subset of
`KNOWN_LABELS` — and, conversely, every element whose normalised text is
exactly a known label contributes it to the signature. -/
theorem extract_signature_amended (elements : List Elem) :
    (∀ l ∈ StructuralMatcher.extract_signature elements,
      ∃ e ∈ elements, l = StructuralMatcher._normalize_text e.text.trim) ∧
    (∀ e ∈ elements, e.text.trim ≠ "" →
      StructuralMatcher._normalize_text e.text.trim ∈ StructuralMatcher.KNOWN_LABELS →
      StructuralMatcher._normalize_text e.text.trim ∈
        StructuralMatcher.extract_signature elements) := by
  obtain ⟨hp1, hp2⟩ := StructuralMatcher.foldl_prov elements ([], [])
  constructor
  · intro l hl
    unfold StructuralMatcher.extract_signature at hl
    rcases StructuralMatcher.sig_finalize_prov _ l hl with h | ⟨b, hb, hlb⟩
    · rcases hp1 l h with h' | h'
      · simp at h'
      · exact h'
    · rcases hp2 b hb with h' | h'
      · simp at h'
      · obtain ⟨e, he, hne⟩ := h'
        exact ⟨e, he, hlb ▸ hne⟩
  · intro e he hne hknown
    have hbase := StructuralMatcher.foldl_collects_known elements ([], []) e he hne hknown
    unfold StructuralMatcher.extract_signature
    exact StructuralMatcher.sig_finalize_subset _ hbase

/-! ## A small backtracking regex matcher

The pattern catalogue of `pattern_builder.py` is a fixed set of eleven
regexes; each is transliterated into this abstract syntax and matched with
Python `re.search` existence semantics. -/

inductive RE where
  | eps
  | cls (p : Char → Bool)
  | seq (a b : RE)
  | alt (a b : RE)
  | star (r : RE)

/-- Backtracking matcher in continuation style: `reMatch fuel r s k` is
true iff some prefix of `s` matches `r` and `k` accepts the rest.  The fuel
bounds star unfoldings; each unfolding must consume input, so
`s.length + 1` fuel is always enough. -/
def reMatch : Nat → RE → List Char → (List Char → Bool) → Bool
  | _, .eps, s, k => k s
  | _, .cls _, [], _ => false
  | _, .cls p, c :: s, k => p c && k s
  | fuel, .seq a b, s, k => reMatch fuel a s (fun t => reMatch fuel b t k)
  | fuel, .alt a b, s, k => reMatch fuel a s k || reMatch fuel b s k
  | 0, .star _, s, k => k s
  | fuel + 1, .star r, s, k =>
      k s || reMatch fuel r s
        (fun t => decide (t.length < s.length) && reMatch fuel (.star r) t k)
termination_by fuel re _ _ => (fuel, sizeOf re)

/-- Python `re.search(r, s)` truthiness: a match starting anywhere. -/
def re_search (r : RE) (s : String) : Bool :=
  s.toList.tails.any fun t => reMatch (t.length + 1) r t (fun _ => true)

def dch : RE := .cls Char.isDigit

def chr (c : Char) : RE := .cls (fun x => x = c)

def reSeqs : List RE → RE := fun l => l.foldr RE.seq .eps

def reReps (r : RE) (n : Nat) : RE := reSeqs (List.replicate n r)

def reOpt (r : RE) : RE := .alt r .eps

def rePlus (r : RE) : RE := .seq r (.star r)

/-- `\w` restricted to ASCII (`[A-Za-z0-9_]`). -/
def wordChar : Char → Bool := fun c => c.isAlphanum || c = '_'

/-- The class `[\w\.-]`. -/
def wordDotDash : Char → Bool := fun c => wordChar c || c = '.' || c = '-'

/-! ## PatternBuilder (`core/learning/pattern_builder.py`) -/

/-- One entry of `COMMON_PATTERNS`: pattern name, raw regex source (as
stored into learned rules), its compiled search predicate, and the
base confidence. -/
structure PatternEntry where
  name : String
  regex : String
  search : String → Bool
  confidence : ℚ

namespace PatternBuilder

/-- `r'\d\x7b3\x7d\.?\d\x7b3\x7d\.?\d\x7b3\x7d-?\d\x7b2\x7d'` -/
def cpf_search (s : String) : Bool :=
  re_search (reSeqs [reReps dch 3, reOpt (chr '.'), reReps dch 3,
    reOpt (chr '.'), reReps dch 3, reOpt (chr '-'), reReps dch 2]) s

/-- `r'\d\x7b2\x7d\.?\d\x7b3\x7d\.?\d\x7b3\x7d/?\d\x7b4\x7d-?\d\x7b2\x7d'` -/
def cnpj_search (s : String) : Bool :=
  re_search (reSeqs [reReps dch 2, reOpt (chr '.'), reReps dch 3,
    reOpt (chr '.'), reReps dch 3, reOpt (chr '/'), reReps dch 4,
    reOpt (chr '-'), reReps dch 2]) s

/-- `r'[\w\.-]+@[\w\.-]+\.\w+'` -/
def email_search (s : String) : Bool :=
  re_search (reSeqs [rePlus (.cls wordDotDash), chr '@',
    rePlus (.cls wordDotDash), chr '.', rePlus (.cls wordChar)]) s

/-- `r'\(?\d\x7b2\x7d\)?\s?\d\x7b4,5\x7d-?\d\x7b4\x7d'` -/
def telefone_search (s : String) : Bool :=
  re_search (reSeqs [reOpt (chr '('), reReps dch 2, reOpt (chr ')'),
    reOpt (.cls Char.isWhitespace), reReps dch 4, reOpt dch,
    reOpt (chr '-'), reReps dch 4]) s

/-- `r'\d\x7b5\x7d-?\d\x7b3\x7d'` -/
def cep_search (s : String) : Bool :=
  re_search (reSeqs [reReps dch 5, reOpt (chr '-'), reReps dch 3]) s

/-- `r'R\$\s?\d\x7b1,3\x7d(?:\.\d\x7b3\x7d)*(?:[.,]\d\x7b2\x7d)'` -/
def valor_monetario_search (s : String) : Bool :=
  re_search (reSeqs [chr 'R', chr '$', reOpt (.cls Char.isWhitespace),
    dch, reOpt dch, reOpt dch, .star (.seq (chr '.') (reReps dch 3)),
    .cls (fun c => c = '.' || c = ','), reReps dch 2]) s

/-- `r'\d\x7b2\x7d/\d\x7b2\x7d/\d\x7b4\x7d'` -/
def data_search (s : String) : Bool :=
  re_search (reSeqs [reReps dch 2, chr '/', reReps dch 2, chr '/',
    reReps dch 4]) s

/-- `r'\d\x7b5,8\x7d'` -/
def numero_inscricao_search (s : String) : Bool :=
  re_search (reReps dch 5) s

/-- `r'\d+'` -/
def numero_search (s : String) : Bool :=
  re_search (rePlus dch) s

/-- `r'^[^\d]+$'` under `re.search`: the whole (stripped) value is
non-empty and digit-free. -/
def texto_search (s : String) : Bool :=
  decide (s.toList ≠ []) && s.toList.all (fun c => !c.isDigit)

/-- `r'.+'`: some character other than a newline. -/
def outros_search (s : String) : Bool :=
  s.toList.any (fun c => c ≠ '\n')

/-- The `COMMON_PATTERNS` catalogue in its source (insertion) order. -/
def COMMON_PATTERNS : List PatternEntry :=
  [⟨"cpf", "\\d\x7b3\x7d\\.?\\d\x7b3\x7d\\.?\\d\x7b3\x7d-?\\d\x7b2\x7d", cpf_search, 1⟩,
   ⟨"cnpj", "\\d\x7b2\x7d\\.?\\d\x7b3\x7d\\.?\\d\x7b3\x7d/?\\d\x7b4\x7d-?\\d\x7b2\x7d", cnpj_search, 1⟩,
   ⟨"email", "[\\w\\.-]+@[\\w\\.-]+\\.\\w+", email_search, 1⟩,
   ⟨"telefone", "\\(?\\d\x7b2\x7d\\)?\\s?\\d\x7b4,5\x7d-?\\d\x7b4\x7d", telefone_search, 1⟩,
   ⟨"cep", "\\d\x7b5\x7d-?\\d\x7b3\x7d", cep_search, 1⟩,
   ⟨"valor_monetario", "R\\$\\s?\\d\x7b1,3\x7d(?:\\.\\d\x7b3\x7d)*(?:[.,]\\d\x7b2\x7d)", valor_monetario_search, 1⟩,
   ⟨"data", "\\d\x7b2\x7d/\\d\x7b2\x7d/\\d\x7b4\x7d", data_search, 1⟩,
   ⟨"numero_inscricao", "\\d\x7b5,8\x7d", numero_inscricao_search, 1⟩,
   ⟨"numero", "\\d+", numero_search, 7/10⟩,
   ⟨"texto", "^[^\\d]+$", texto_search, 7/10⟩,
   ⟨"outros", ".+", outros_search, 7/10⟩]

def Y_TOLERANCE_SAME_LINE : ℚ := 10

def X_TOLERANCE_SAME_COLUMN : ℚ := 20

end PatternBuilder

/-- A learned rule's data payload (the source serialises it to JSON when
persisting; the payload structure is kept directly here). -/
inductive RuleData where
  | noneR (reason : String)
  | regexR (pattern regexSrc : String)
  | contextR (anchor_text direction : String)
  | positionR (rel_x rel_y tolerance : ℚ)
  | hybridR (rules : List (String × RuleData × ℚ))
deriving Repr

/-- A found sub-rule: `(type, data, confidence)`. -/
abbrev FoundRule := String × RuleData × ℚ

namespace PatternBuilder

/-- ASCII lowercasing (`field_name.lower()`; field names are ASCII). -/
def pyLowerAscii (s : String) : String := String.mk (s.toList.map Char.toLower)

/-- `re.fullmatch(r'\d+', text.strip())` truthiness. -/
def isNumericText (s : String) : Bool :=
  decide (s.trim.toList ≠ []) && s.trim.toList.all Char.isDigit

/-- `_find_element_by_text`: exact text match first, then substring. -/
def _find_element_by_text (text : String) (elements : List Elem) : Option Elem :=
  match elements.find? (fun e => e.text == text) with
  | some e => some e
  | none => elements.find? (fun e => StructuralMatcher.strContains e.text text)

/-- `_learn_regex_pattern`: first catalogue entry whose name occurs in the
lowered field name or whose regex matches the value. -/
def _learn_regex_pattern (field_name field_value : String) : Option FoundRule :=
  (COMMON_PATTERNS.find? fun pe =>
    StructuralMatcher.strContains (pyLowerAscii field_name) pe.name ||
      pe.search field_value).map
    fun pe => ("regex", RuleData.regexR pe.name pe.regex, pe.confidence)

/-- `_find_anchor_left`: nearest non-numeric token on the same line,
strictly to the left. -/
def _find_anchor_left (ve : Elem) (elements : List Elem) : Option Elem :=
  (elements.foldl
    (fun (best : Option (Elem × ℚ)) e =>
      if isNumericText e.text then best
      else if |e.y - ve.y| ≤ Y_TOLERANCE_SAME_LINE ∧ e.x < ve.x then
        match best with
        | none => some (e, ve.x - e.x)
        | some (_, bd) => if ve.x - e.x < bd then some (e, ve.x - e.x) else best
      else best)
    none).map Prod.fst

/-- `_find_anchor_above`: nearest non-numeric token strictly above within
the column tolerance. -/
def _find_anchor_above (ve : Elem) (elements : List Elem) : Option Elem :=
  (elements.foldl
    (fun (best : Option (Elem × ℚ)) e =>
      if isNumericText e.text then best
      else if e.y < ve.y ∧ |e.x - ve.x| ≤ X_TOLERANCE_SAME_COLUMN then
        match best with
        | none => some (e, ve.y - e.y)
        | some (_, bd) => if ve.y - e.y < bd then some (e, ve.y - e.y) else best
      else best)
    none).map Prod.fst

/-- `_learn_context_pattern`: left anchor first, then anchor above. -/
def _learn_context_pattern (field_value : String) (elements : List Elem) :
    Option FoundRule :=
  match _find_element_by_text field_value elements with
  | none => none
  | some ve =>
      match _find_anchor_left ve elements with
      | some a => some ("relative_context", RuleData.contextR a.text "right", 8/10)
      | none =>
          match _find_anchor_above ve elements with
          | some a => some ("relative_context", RuleData.contextR a.text "below", 8/10)
          | none => none

/-- `_learn_position_pattern`.  The tokeniser always provides coordinates
(the embedding types them total), so the Python `is None` guard reduces to
the zero-dimension checks. -/
def _learn_position_pattern (ve : Elem) : Option FoundRule :=
  if ve.page_width = 0 ∨ ve.page_height = 0 then none
  else some ("position",
    RuleData.positionR (ve.x / ve.page_width) (ve.y / ve.page_height) (5/100), 6/10)

/-- `str(field_value)` for the values the pipeline passes around. -/
def pyStr : Val → String
  | .vnull => "None"
  | .vstr s => s
  | .vmeta _ => "<metadata>"

/-- Fuel-driven floor of log₂ (fuel `n` suffices for input `n`). -/
def log2fuel : Nat → Nat → Nat
  | 0, _ => 0
  | fuel + 1, n => if 2 ≤ n then log2fuel fuel (n / 2) + 1 else 0

def nlog2 (n : Nat) : Nat := log2fuel n n

/-- Least `m` with `b ≤ a * 2 ^ m`, for `a ≥ 1` (fuel `b` suffices). -/
def lowShiftFuel : Nat → Nat → Nat → Nat
  | 0, _, _ => 0
  | fuel + 1, a, b => if b ≤ a then 0 else lowShiftFuel fuel (2 * a) b + 1

def lowShift (a b : Nat) : Nat := lowShiftFuel b a b

/-- Round a rational to the nearest IEEE-754 binary64 value (53-bit
significand, round half to even).  Python floats are binary64, so every
arithmetic step of the hybrid-confidence computation rounds its exact
result through this function; the pipeline only ever computes confidences
well inside the normal range, where this is exactly Python semantics. -/
def dbl (q : ℚ) : ℚ :=
  if q.num = 0 then 0
  else
    let a := q.num.natAbs
    let b := q.den
    let k : ℤ := if b ≤ a then (nlog2 (a / b) : ℤ) else -(lowShift a b : ℤ)
    let s : ℤ := 52 - k
    let m : ℚ := if 0 ≤ s then |q| * (2 : ℚ) ^ s.toNat
      else |q| / (2 : ℚ) ^ (-s).toNat
    let n0 : ℤ := m.num / (m.den : ℤ)
    let r : ℚ := m - (n0 : ℚ)
    let n : ℤ := if r < 1/2 then n0
      else if 1/2 < r then n0 + 1
      else if n0 % 2 = 0 then n0 else n0 + 1
    let e : ℤ := k - 52
    let mag : ℚ := if 0 ≤ e then (n : ℚ) * (2 : ℚ) ^ e.toNat
      else (n : ℚ) / (2 : ℚ) ^ (-e).toNat
    if q < 0 then -mag else mag

/-- `sum(confidences) / len(confidences) + 0.2`, capped at `0.99`, in
Python binary64 floats: each confidence literal is the double nearest its
decimal, `sum` folds rounded additions from 0, and the division and the
addition round their exact results through `dbl`. -/
def hybridConf (cs : List ℚ) : ℚ :=
  let s := (cs.map dbl).foldl (fun a c => dbl (a + c)) 0
  let hybrid0 := dbl (s / (cs.length : ℚ))
  let hybrid1 := dbl (hybrid0 + dbl (2/10))
  min hybrid1 (dbl (99/100))

/-- `learn_rule_for_field`: null handling, value location, the three
sub-learners, and the hybrid/single/none combination. -/
def learn_rule_for_field (field_name : String) (field_value : Val)
    (elements : List Elem) : FoundRule :=
  if field_value = .vnull ∨ field_value = .vstr "null" then
    ("none", .noneR "value_is_null", 9/10)
  else
    let value_str := (pyStr field_value).trim
    match _find_element_by_text value_str elements with
    | none => ("none", .noneR "value_not_found_in_elements", 1/10)
    | some ve =>
        let found_rules :=
          (match _learn_regex_pattern field_name value_str with
            | some r => [r] | none => []) ++
          (match _learn_context_pattern value_str elements with
            | some r => [r] | none => []) ++
          (match _learn_position_pattern ve with
            | some r => [r] | none => [])
        if 1 < found_rules.length then
          ("hybrid", .hybridR found_rules,
            hybridConf (found_rules.map fun r => r.2.2))
        else
          match found_rules with
          | [r] => r
          | _ => ("none", .noneR "no_pattern_found", 1/10)

end PatternBuilder

/-- Witness for C4 (amended) at a concrete token list. -/
theorem extract_signature_amended_witness :
    (∀ l ∈ StructuralMatcher.extract_signature
        [{ text := "Inscrição", x := 0, y := 0 }],
      ∃ e ∈ [({ text := "Inscrição", x := 0, y := 0 } : Elem)],
        l = StructuralMatcher._normalize_text e.text.trim) ∧
    (∀ e ∈ [({ text := "Inscrição", x := 0, y := 0 } : Elem)], e.text.trim ≠ "" →
      StructuralMatcher._normalize_text e.text.trim ∈ StructuralMatcher.KNOWN_LABELS →
      StructuralMatcher._normalize_text e.text.trim ∈
        StructuralMatcher.extract_signature
          [{ text := "Inscrição", x := 0, y := 0 }]) :=
  extract_signature_amended [{ text := "Inscrição", x := 0, y := 0 }]

/-! ## TemplateDatabase (`core/store/database.py`)

SQLite tables modelled as lists in rowid order; `rule_data` is kept as the
structured payload the source round-trips through `json.dumps`/`loads`. -/

structure TemplateRow where
  id : Nat
  label : String
  sample_count : Nat
  confidence : ℚ
  structural_signature : List String
deriving DecidableEq, Repr

structure RuleRow where
  id : Nat
  template_id : Nat
  field_name : String
  rule_type : String
  rule_data : RuleData
  confidence : ℚ
deriving Repr

structure TemplateDB where
  templates : List TemplateRow
  rules : List RuleRow
  next_template_id : Nat
  next_rule_id : Nat
deriving Repr

namespace TemplateDatabase

def init : TemplateDB :=
  { templates := [], rules := [], next_template_id := 1, next_rule_id := 1 }

/-- `SELECT * FROM templates WHERE label = ? LIMIT 1` (rowid order). -/
def find_template_by_label (db : TemplateDB) (label : String) : Option TemplateRow :=
  db.templates.find? (fun t => t.label == label)

/-- `json.dumps(sorted(signature))` stores the signature sorted; it is kept
as the sorted list. -/
def sortStrings (l : List String) : List String :=
  l.mergeSort (fun a b => decide (a ≤ b))

/-- `create_template`: `sample_count = 1`, `confidence = 0.5`. -/
def create_template (db : TemplateDB) (label : String)
    (structural_signature : List String) : Nat × TemplateDB :=
  (db.next_template_id,
   { db with
      templates := db.templates ++
        [{ id := db.next_template_id, label := label, sample_count := 1,
           confidence := 1/2,
           structural_signature := sortStrings structural_signature }],
      next_template_id := db.next_template_id + 1 })

/-- `update_template_signature`: replace the signature (sorted) and bump
`sample_count`. -/
def update_template_signature (db : TemplateDB) (template_id : Nat)
    (new_signature : List String) : TemplateDB :=
  { db with templates := db.templates.map fun t =>
      if t.id = template_id then
        { t with structural_signature := sortStrings new_signature,
                 sample_count := t.sample_count + 1 }
      else t }

/-- `add_extraction_rule`: delete any prior rule for the same
`(template_id, field_name)`, then insert (upsert). -/
def add_extraction_rule (db : TemplateDB) (template_id : Nat)
    (field_name rule_type : String) (rule_data : RuleData) (confidence : ℚ) :
    TemplateDB :=
  { db with
      rules := (db.rules.filter fun r =>
          !(r.template_id = template_id ∧ r.field_name = field_name)) ++
        [{ id := db.next_rule_id, template_id := template_id,
           field_name := field_name, rule_type := rule_type,
           rule_data := rule_data, confidence := confidence }],
      next_rule_id := db.next_rule_id + 1 }

/-- `SELECT * FROM extraction_rules WHERE template_id = ?`. -/
def get_extraction_rules (db : TemplateDB) (template_id : Nat) : List RuleRow :=
  db.rules.filter (fun r => r.template_id == template_id)

end TemplateDatabase

/-! ## RuleExecutor (`core/learning/rule_executor.py`) -/

namespace RuleExecutor

def STRONG_REGEX_PATTERNS : List String := ["cpf", "cnpj", "email", "telefone", "cep"]

def POSITION_TOLERANCE : ℚ := 5/100

def POSITION_SCORE : ℚ := 9/10

def CONTEXT_SCORE : ℚ := 9/10

def STRONG_REGEX_SCORE : ℚ := 1

def Y_TOLERANCE_SAME_LINE : ℚ := 10

def X_TOLERANCE_SAME_COLUMN : ℚ := 20

/-- An element with the relative coordinates of `_preprocess_elements`. -/
structure PElem where
  elem : Elem
  rel_x : ℚ
  rel_y : ℚ
deriving DecidableEq, Repr

/-- `_preprocess_elements`.  The tokeniser always supplies coordinates and
page dimensions, so the `.get` fallbacks never fire. -/
def _preprocess_elements (elements : List Elem) : List PElem :=
  elements.map fun e => ⟨e, e.x / e.page_width, e.y / e.page_height⟩

/-- Python lowercasing covering the accented Latin letters in use. -/
def lowerChar (c : Char) : Char :=
  match (['Á', 'À', 'Â', 'Ã', 'Ä', 'É', 'È', 'Ê', 'Ë', 'Í', 'Ì', 'Î', 'Ï',
      'Ó', 'Ò', 'Ô', 'Õ', 'Ö', 'Ú', 'Ù', 'Û', 'Ü', 'Ç', 'Ñ'].zip
      ['á', 'à', 'â', 'ã', 'ä', 'é', 'è', 'ê', 'ë', 'í', 'ì', 'î', 'ï',
      'ó', 'ò', 'ô', 'õ', 'ö', 'ú', 'ù', 'û', 'ü', 'ç', 'ñ']).find?
      (fun p => p.1 = c) with
  | some p => p.2
  | none => c.toLower

def pyLower (s : String) : String := String.mk (s.toList.map lowerChar)

/-- The executor's `_find_element_by_text`: stripped exact match, then
case-insensitive substring. -/
def _find_element_by_text (text : String) (elements : List PElem) : Option PElem :=
  match elements.find? (fun e => e.elem.text.trim == text.trim) with
  | some e => some e
  | none => elements.find? (fun e =>
      StructuralMatcher.strContains (pyLower e.elem.text).trim (pyLower text).trim)

/-- `_find_element_to_right`: same line within the Y tolerance, strictly to
the right, smallest Δx (first seen wins ties, as Python's stable sort does). -/
def _find_element_to_right (anchor : PElem) (elements : List PElem) : Option PElem :=
  (elements.foldl
    (fun (best : Option (PElem × ℚ)) e =>
      if e.elem.x > anchor.elem.x ∧ |e.elem.y - anchor.elem.y| ≤ Y_TOLERANCE_SAME_LINE then
        match best with
        | none => some (e, e.elem.x - anchor.elem.x)
        | some (_, bd) => if e.elem.x - anchor.elem.x < bd then
            some (e, e.elem.x - anchor.elem.x) else best
      else best)
    none).map Prod.fst

/-- `_find_element_below`: same column within the X tolerance, strictly
below, smallest Δy. -/
def _find_element_below (anchor : PElem) (elements : List PElem) : Option PElem :=
  (elements.foldl
    (fun (best : Option (PElem × ℚ)) e =>
      if e.elem.y > anchor.elem.y ∧ |e.elem.x - anchor.elem.x| ≤ X_TOLERANCE_SAME_COLUMN then
        match best with
        | none => some (e, e.elem.y - anchor.elem.y)
        | some (_, bd) => if e.elem.y - anchor.elem.y < bd then
            some (e, e.elem.y - anchor.elem.y) else best
      else best)
    none).map Prod.fst

def _find_element_by_direction (anchor : PElem) (direction : String)
    (elements : List PElem) : Option PElem :=
  if direction = "right" then _find_element_to_right anchor elements
  else if direction = "below" then _find_element_below anchor elements
  else none

/-- A scored candidate.  `distSq` carries the squared Euclidean distance
(`math.sqrt` is monotone and the distance is only ever compared, so the
square preserves every comparison); `none` is the initial `float('inf')`. -/
structure Cand where
  elem : PElem
  score : ℚ
  distSq : Option ℚ
deriving Repr

/-- Comparison of (possibly infinite) squared distances. -/
def distLe : Option ℚ → Option ℚ → Bool
  | none, none => true
  | none, some _ => false
  | some _, none => true
  | some a, some b => decide (a ≤ b)

/-- The final sort key `(-score, distance)`, ascending and stable. -/
def exec_cand_le (a b : Cand) : Bool :=
  decide (b.score < a.score) || (decide (a.score = b.score) && distLe a.distSq b.distSq)

/-- Look a stored regex pattern up by name; names identify the regexes of
the fixed catalogue one-to-one, which is how the source re-compiles the
stored regex source text. -/
def searchByName (pattern : String) (s : String) : Bool :=
  match PatternBuilder.COMMON_PATTERNS.find? (fun pe => pe.name == pattern) with
  | some pe => pe.search s
  | none => false

/-- `_find_best_candidate`: the 6-step hybrid scoring algorithm. -/
def _find_best_candidate (rules : List FoundRule) (elements : List PElem) :
    Option String :=
  let pos_rule := (rules.find? (fun r => r.1 == "position")).map (fun r => r.2.1)
  let ctx_rule := (rules.find? (fun r => r.1 == "relative_context")).map (fun r => r.2.1)
  let rgx_rule := (rules.find? (fun r => r.1 == "regex")).map (fun r => r.2.1)
  match rgx_rule with
  | some (RuleData.regexR pattern _regexSrc) =>
      let cands0 : List Cand := elements.map fun e => ⟨e, 0, none⟩
      let cands1 : List Cand := match pos_rule with
        | some (RuleData.positionR tx ty _tol) =>
            cands0.map fun c =>
              let d2 := (c.elem.rel_x - tx) ^ 2 + (c.elem.rel_y - ty) ^ 2
              { c with distSq := some d2,
                       score := c.score +
                         if d2 ≤ POSITION_TOLERANCE ^ 2 then POSITION_SCORE else 0 }
        | _ => cands0
      let cands2 : List Cand := match ctx_rule with
        | some (RuleData.contextR anchor_text direction) =>
            match _find_element_by_text anchor_text elements with
            | some anchor =>
                match _find_element_by_direction anchor direction elements with
                | some target =>
                    match elements.findIdx? (fun e => e == target) with
                    | some idx =>
                        cands1.mapIdx fun i c =>
                          if i = idx then { c with score := c.score + CONTEXT_SCORE }
                          else c
                    | none => cands1
                | none => cands1
            | none => cands1
        | _ => cands1
      let cands3 : List Cand :=
        if pattern ∈ STRONG_REGEX_PATTERNS then
          cands2.map fun c =>
            if searchByName pattern c.elem.elem.text then
              { c with score := c.score + STRONG_REGEX_SCORE }
            else c
        else cands2
      let filtered := cands3.filter fun c =>
        searchByName pattern c.elem.elem.text && decide (0 < c.score)
      match filtered.mergeSort exec_cand_le with
      | [] => none
      | best :: _ => some best.elem.elem.text
  | _ => none

/-- `execute_all_rules`: hybrid rules run the candidate search, `none`
rules (and any other single-typed rule) yield `null`. -/
def execute_all_rules (rules : List RuleRow) (elements : List Elem) :
    List (String × Option String) :=
  let processed := _preprocess_elements elements
  rules.foldl
    (fun acc rule =>
      let value : Option String :=
        if rule.rule_type = "hybrid" then
          match rule.rule_data with
          | RuleData.hybridR subs => _find_best_candidate subs processed
          | _ => none
        else none
      dictInsert acc rule.field_name value)
    []

end RuleExecutor

/-! ## TemplateOrchestrator (`core/learning/template_orchestrator.py`) -/

namespace TemplateOrchestrator

def MIN_SAMPLE_THRESHOLD : Nat := 2

def MIN_RULE_CONFIDENCE_TO_SAVE : ℚ := 1/2

/-- `check_and_use_template`: label lookup, warm-up gate, signature
comparison (handing `check_similarity` the raw token list, exactly as the
source does), then rule loading and execution. -/
def check_and_use_template (db : TemplateDB) (label : String)
    (elements : List Elem) :
    Except PyError (Option (List (String × Option String))) := do
  match TemplateDatabase.find_template_by_label db label with
  | none => .ok none
  | some template =>
      if template.sample_count < MIN_SAMPLE_THRESHOLD then .ok none
      else do
        let saved_signature_list := template.structural_signature
        let ms ← StructuralMatcher.check_similarity
          (.elemList elements) saved_signature_list
        if !ms.1 then .ok none
        else
          let rules := TemplateDatabase.get_extraction_rules db template.id
          if rules.isEmpty then .ok none
          else .ok (some (RuleExecutor.execute_all_rules rules elements))

/-- One iteration of the learning loop: learn a rule for the field from
`llm_data` and persist it when its confidence clears the threshold. -/
def learn_field_step (elements : List Elem) (llm_data : List (String × Val))
    (template_id : Nat) (db : TemplateDB) (kv : String × String) : TemplateDB :=
  let field_value := (dictLookup llm_data kv.1).getD Val.vnull
  let rule := PatternBuilder.learn_rule_for_field kv.1 field_value elements
  if MIN_RULE_CONFIDENCE_TO_SAVE ≤ rule.2.2 then
    TemplateDatabase.add_extraction_rule db template_id kv.1 rule.1 rule.2.1 rule.2.2
  else db

/-- `learn_from_llm_result`: extend or create the template's signature,
then learn one rule per schema field. -/
def learn_from_llm_result (db : TemplateDB) (label : String)
    (schema : List (String × String)) (llm_data : List (String × Val))
    (elements : List Elem) : TemplateDB :=
  let new_signature := StructuralMatcher.extract_signature elements
  let tdb :=
    match TemplateDatabase.find_template_by_label db label with
    | some t =>
        let updated := t.structural_signature ++
          new_signature.filter (fun s => s ∉ t.structural_signature)
        (t.id, TemplateDatabase.update_template_signature db t.id updated)
    | none => TemplateDatabase.create_template db label new_signature
  schema.foldl (learn_field_step elements llm_data tdb.1) tdb.2

end TemplateOrchestrator

/-! ## The extraction pipeline (`core/api_server.py`) -/

structure PipeStats where
  total_requests : Nat
  cache_hits_l1_l2 : Nat
  cache_hits_l3 : Nat
  template_hits : Nat
  llm_calls_full : Nat
  llm_calls_fallback : Nat
deriving DecidableEq, Repr

/-- The mutable state the singleton pipeline shares across requests. -/
structure PipelineState where
  cache : CacheState
  db : TemplateDB
  stats : PipeStats
deriving Repr

/-- The outcome of `json.loads` on the LLM response: either the raised
`JSONDecodeError` or the parsed object.  The LLM itself is an external
collaborator, so its (parsed) response is an input to the pipeline. -/
inductive LLMResult where
  | unparseable
  | parsed (data : List (String × Val))
deriving Repr

def pipelineInit : PipelineState :=
  { cache := CacheManager.init, db := TemplateDatabase.init,
    stats := { total_requests := 0, cache_hits_l1_l2 := 0, cache_hits_l3 := 0,
               template_hits := 0, llm_calls_full := 0, llm_calls_fallback := 0 } }

namespace ExtractionPipeline

/-- Python truthiness of `final_data.get(k) is None`. -/
def pyIsNone : Option Val → Bool
  | none => true
  | some .vnull => true
  | some _ => false

/-- The template attempt (`--- Etapa 2 ---`): run only when fields remain;
adopt non-null template values, keep the rest for the LLM. -/
def template_stage (db : TemplateDB) (label : String) (elements : List Elem)
    (final0 : List (String × Val)) (sch0 : List (String × String))
    (steps0 : List String) (stats : PipeStats) :
    Except PyError
      (List (String × Val) × List (String × String) × List String × PipeStats) :=
  if sch0.isEmpty then .ok (final0, sch0, steps0, stats)
  else do
    let tres ← TemplateOrchestrator.check_and_use_template db label elements
    match tres with
    | some m =>
        if m.isEmpty then .ok (final0, sch0, steps0, stats)
        else
          let fdts := sch0.foldl
            (fun (acc : List (String × Val) × List (String × String)) kv =>
              match dictLookup m kv.1 with
              | some (some s) => (dictInsert acc.1 kv.1 (Val.vstr s), acc.2)
              | _ => (acc.1, acc.2 ++ [kv]))
            (final0, [])
          .ok (fdts.1, fdts.2, steps0 ++ ["template"],
            { stats with template_hits := stats.template_hits + 1 })
    | none => .ok (final0, sch0, steps0, stats)

/-- The LLM fallback (`--- Etapa 3 ---`): call the LLM on the reduced
schema, recover from an unparseable response with `\x7b\x7d`, merge, learn. -/
def llm_stage (db : TemplateDB) (label : String) (elements : List Elem)
    (llm : List (String × String) → LLMResult) (final1 : List (String × Val))
    (sch1 : List (String × String)) (steps1 : List String) (stats1 : PipeStats) :
    List (String × Val) × List String × PipeStats × TemplateDB :=
  if sch1.isEmpty then (final1, steps1, stats1, db)
  else
    let steps2 := if steps1.isEmpty then steps1 ++ ["llm-full"]
      else steps1 ++ ["llm-fallback"]
    let stats2 := if steps1.isEmpty then
        { stats1 with llm_calls_full := stats1.llm_calls_full + 1 }
      else { stats1 with llm_calls_fallback := stats1.llm_calls_fallback + 1 }
    let llm_data := match llm sch1 with
      | .unparseable => []
      | .parsed d => d
    (dictUpdate final1 llm_data, steps2, stats2,
     TemplateOrchestrator.learn_from_llm_result db label sch1 llm_data elements)

/-- The shared tail of `extract` after the cache stage: template attempt,
LLM fallback, writeback, and the `_pipeline` annotation. -/
def pipeline_rest (cache1 : CacheState) (db : TemplateDB) (stats : PipeStats)
    (pdf_bytes : Bytes) (label : String) (schema : List (String × String))
    (elements : List Elem) (llm : List (String × String) → LLMResult)
    (final0 : List (String × Val)) (sch0 : List (String × String))
    (steps0 : List String) :
    Except PyError (List (String × Val) × PipelineState) := do
  let st1 ← template_stage db label elements final0 sch0 steps0 stats
  match llm_stage db label elements llm st1.1 st1.2.1 st1.2.2.1 st1.2.2.2 with
  | (final2, steps2, stats2, db2) =>
      let meta : PipelineMeta :=
        { method := String.intercalate "->" steps2, steps := steps2 }
      .ok (dictInsert final2 "_pipeline" (.vmeta meta),
        { cache := CacheManager.set cache1 pdf_bytes label schema final2 meta,
          db := db2, stats := stats2 })

/-- `ExtractionPipeline.extract`: the full state machine
`L1/L2 → L3 → template → LLM → learn → writeback`. -/
def extract (st : PipelineState) (pdf_bytes : Bytes) (label : String)
    (schema : List (String × String)) (elements : List Elem)
    (llm : List (String × String) → LLMResult) :
    Except PyError (List (String × Val) × PipelineState) :=
  let stats0 := { st.stats with total_requests := st.stats.total_requests + 1 }
  let full_key := CacheKeyBuilder.generate_l1_l2_key pdf_bytes label schema
  let gr := CacheManager.get st.cache pdf_bytes label schema
  match gr.1 with
  | some e =>
      let source := e.cache_info.map CacheInfo.source
      if source = some "L1_MEMORY" ∨ source = some "L2_DISK" then
        match e.metadata with
        | none => .error .keyError
        | some _ =>
            -- `cached_result["metadata"]` aliases the entry held in L1
            -- (directly on an L1 hit, via promotion on an L2 hit), so the
            -- `method = "cache-l2"` write lands in the stored entry too.
            let cache2 := { gr.2 with l1_memory_cache :=
              gr.2.l1_memory_cache.map fun kv =>
                if kv.1 = full_key then
                  (kv.1, { kv.2 with metadata :=
                    kv.2.metadata.map fun md => { md with method := "cache-l2" } })
                else kv }
            .ok (e.data,
              { cache := cache2, db := st.db,
                stats := { stats0 with
                  cache_hits_l1_l2 := stats0.cache_hits_l1_l2 + 1 } })
      else if source = some "L3_PARTIAL" then
        pipeline_rest gr.2 st.db
          { stats0 with cache_hits_l3 := stats0.cache_hits_l3 + 1 }
          pdf_bytes label schema elements llm e.data
          (schema.filter fun kv => pyIsNone (dictLookup e.data kv.1))
          ["cache-l3"]
      else
        pipeline_rest gr.2 st.db stats0 pdf_bytes label schema elements llm
          [] schema []
  | none =>
      pipeline_rest gr.2 st.db stats0 pdf_bytes label schema elements llm
        [] schema []

end ExtractionPipeline

/-- The learned rules currently stored for a label. -/
def rules_for_label (db : TemplateDB) (label : String) : List RuleRow :=
  match TemplateDatabase.find_template_by_label db label with
  | some t => TemplateDatabase.get_extraction_rules db t.id
  | none => []

/-- Does the label have a template mature enough to be applied? -/
def templateMature (db : TemplateDB) (label : String) : Bool :=
  match TemplateDatabase.find_template_by_label db label with
  | some t => decide (TemplateOrchestrator.MIN_SAMPLE_THRESHOLD ≤ t.sample_count)
  | none => false

def exceptIsOk {α : Type} : Except PyError α → Bool
  | .ok _ => true
  | .error _ => false

def run_result (x : Except PyError (List (String × Val) × PipelineState)) :
    List (String × Val) :=
  match x with
  | .ok p => p.1
  | .error _ => []

def run_state (x : Except PyError (List (String × Val) × PipelineState)) :
    PipelineState :=
  match x with
  | .ok p => p.2
  | .error _ => pipelineInit

/-! ## Theorems about the PatternBuilder's confidences -/

namespace PatternBuilder

theorem regex_rule_shape (field_name field_value : String) (r : FoundRule)
    (h : _learn_regex_pattern field_name field_value = some r) :
    r.1 = "regex" ∧ (r.2.2 = 7/10 ∨ r.2.2 = 1) := by
  unfold _learn_regex_pattern at h
  rcases hfind : COMMON_PATTERNS.find? (fun pe =>
      StructuralMatcher.strContains (pyLowerAscii field_name) pe.name ||
        pe.search field_value) with _ | pe
  · rw [hfind] at h; simp at h
  · rw [hfind] at h
    have hmem : pe ∈ COMMON_PATTERNS := List.mem_of_find?_eq_some hfind
    have hconf : pe.confidence = 7/10 ∨ pe.confidence = 1 := by
      fin_cases hmem <;> norm_num [COMMON_PATTERNS]
    have hr : r = ("regex", RuleData.regexR pe.name pe.regex, pe.confidence) := by
      simpa using h.symm
    rw [hr]
    exact ⟨rfl, hconf⟩

theorem context_rule_shape (field_value : String) (elements : List Elem)
    (r : FoundRule) (h : _learn_context_pattern field_value elements = some r) :
    r.1 = "relative_context" ∧ r.2.2 = 8/10 := by
  unfold _learn_context_pattern at h
  rcases h1 : _find_element_by_text field_value elements with _ | ve <;> rw [h1] at h
  · simp at h
  · dsimp only at h
    rcases h2 : _find_anchor_left ve elements with _ | a <;> rw [h2] at h <;>
      dsimp only at h
    · rcases h3 : _find_anchor_above ve elements with _ | a <;> rw [h3] at h <;>
        dsimp only at h
      · simp at h
      · have hr : r = ("relative_context", RuleData.contextR a.text "below", 8/10) := by
          simpa using h.symm
        rw [hr]; exact ⟨rfl, rfl⟩
    · have hr : r = ("relative_context", RuleData.contextR a.text "right", 8/10) := by
        simpa using h.symm
      rw [hr]; exact ⟨rfl, rfl⟩

theorem position_rule_shape (ve : Elem) (r : FoundRule)
    (h : _learn_position_pattern ve = some r) :
    r.1 = "position" ∧ r.2.2 = 6/10 := by
  unfold _learn_position_pattern at h
  split_ifs at h
  rw [← Option.some_inj.mp h]; exact ⟨rfl, rfl⟩

end PatternBuilder

/-- C10 (amended): the confidence returned by `learn_rule_for_field` is
0.9 (`none` for a null value), 0.1 (`none` failure cases), at least 0.6
for a single sub-rule (and never above 1), or, for a hybrid, within
[3828059683264921/4503599627370496, 0.99] — the lower end is the IEEE
binary64 value of `(0.7 + 0.6) / 2 + 0.2`, i.e. 0.8499999999999999, one
ulp BELOW the 0.85 the original claim asserts; every rule other than the
0.1 failures still clears the 0.5 persistence threshold. -/
theorem learn_rule_confidence (field_name : String) (field_value : Val)
    (elements : List Elem) :
    (((PatternBuilder.learn_rule_for_field field_name field_value elements).1 = "none" ∧
        (PatternBuilder.learn_rule_for_field field_name field_value elements).2.2 = 9/10) ∨
      ((PatternBuilder.learn_rule_for_field field_name field_value elements).1 = "none" ∧
        (PatternBuilder.learn_rule_for_field field_name field_value elements).2.2 = 1/10) ∨
      ((PatternBuilder.learn_rule_for_field field_name field_value elements).1 ≠ "none" ∧
        (PatternBuilder.learn_rule_for_field field_name field_value elements).1 ≠ "hybrid" ∧
        3/5 ≤ (PatternBuilder.learn_rule_for_field field_name field_value elements).2.2 ∧
        (PatternBuilder.learn_rule_for_field field_name field_value elements).2.2 ≤ 1) ∨
      ((PatternBuilder.learn_rule_for_field field_name field_value elements).1 = "hybrid" ∧
        Rat.divInt 3828059683264921 4503599627370496 ≤
          (PatternBuilder.learn_rule_for_field field_name field_value elements).2.2 ∧
        (PatternBuilder.learn_rule_for_field field_name field_value elements).2.2 ≤ 99/100)) ∧
    ((PatternBuilder.learn_rule_for_field field_name field_value elements).2.2 ≠ 1/10 →
      1/2 ≤ (PatternBuilder.learn_rule_for_field field_name field_value elements).2.2) := by
  unfold PatternBuilder.learn_rule_for_field
  by_cases hnull : field_value = .vnull ∨ field_value = .vstr "null"
  · rw [if_pos hnull]
    exact ⟨Or.inl (by norm_num), by norm_num⟩
  · rw [if_neg hnull]
    rcases hfind : PatternBuilder._find_element_by_text
        ((PatternBuilder.pyStr field_value).trim) elements with _ | ve <;>
      simp only [hfind]
    · exact ⟨Or.inr (Or.inl (by norm_num)), by norm_num⟩
    · rcases hr : PatternBuilder._learn_regex_pattern field_name
          ((PatternBuilder.pyStr field_value).trim) with _ | r <;>
        rcases hc : PatternBuilder._learn_context_pattern
          ((PatternBuilder.pyStr field_value).trim) elements with _ | c <;>
        rcases hp : PatternBuilder._learn_position_pattern ve with _ | p <;>
        simp only [hr, hc, hp, List.nil_append, List.append_nil, List.cons_append,
          List.singleton_append, List.length_nil, List.length_cons, List.length_singleton]
      · -- no rules at all
        norm_num
      · -- position only
        obtain ⟨hp1, hp2⟩ := PatternBuilder.position_rule_shape ve p hp
        norm_num
        refine ⟨Or.inr (Or.inr (Or.inl ⟨?_, ?_, ?_, ?_⟩)), ?_⟩ <;>
          simp [hp1, hp2] <;> norm_num
      · -- context only
        obtain ⟨hc1, hc2⟩ := PatternBuilder.context_rule_shape _ _ c hc
        norm_num
        refine ⟨Or.inr (Or.inr (Or.inl ⟨?_, ?_, ?_, ?_⟩)), ?_⟩ <;>
          simp [hc1, hc2] <;> norm_num
      · -- context + position
        obtain ⟨hc1, hc2⟩ := PatternBuilder.context_rule_shape _ _ c hc
        obtain ⟨hp1, hp2⟩ := PatternBuilder.position_rule_shape ve p hp
        have hval : Rat.divInt 3828059683264921 4503599627370496 ≤
            PatternBuilder.hybridConf [8/10, 6/10] ∧
            PatternBuilder.hybridConf [8/10, 6/10] ≤ 99/100 ∧
            1/2 ≤ PatternBuilder.hybridConf [8/10, 6/10] := by
          refine ⟨?_, ?_, ?_⟩ <;> with_unfolding_all decide
        simp only [List.map_cons, List.map_nil, hc2, hp2]
        exact ⟨Or.inr (Or.inr (Or.inr ⟨rfl, hval.1, hval.2.1⟩)),
          fun _ => hval.2.2⟩
      · -- regex only
        obtain ⟨hr1, hr2⟩ := PatternBuilder.regex_rule_shape _ _ r hr
        norm_num
        refine ⟨Or.inr (Or.inr (Or.inl ⟨?_, ?_, ?_, ?_⟩)), ?_⟩ <;>
          rcases hr2 with h2 | h2 <;> simp [hr1, h2] <;> norm_num
      · -- regex + position
        obtain ⟨hr1, hr2⟩ := PatternBuilder.regex_rule_shape _ _ r hr
        obtain ⟨hp1, hp2⟩ := PatternBuilder.position_rule_shape ve p hp
        have hval1 : Rat.divInt 3828059683264921 4503599627370496 ≤
            PatternBuilder.hybridConf [7/10, 6/10] ∧
            PatternBuilder.hybridConf [7/10, 6/10] ≤ 99/100 ∧
            1/2 ≤ PatternBuilder.hybridConf [7/10, 6/10] := by
          refine ⟨?_, ?_, ?_⟩ <;> with_unfolding_all decide
        have hval2 : Rat.divInt 3828059683264921 4503599627370496 ≤
            PatternBuilder.hybridConf [1, 6/10] ∧
            PatternBuilder.hybridConf [1, 6/10] ≤ 99/100 ∧
            1/2 ≤ PatternBuilder.hybridConf [1, 6/10] := by
          refine ⟨?_, ?_, ?_⟩ <;> with_unfolding_all decide
        rcases hr2 with h2 | h2
        · simp only [List.map_cons, List.map_nil, h2, hp2]
          exact ⟨Or.inr (Or.inr (Or.inr ⟨rfl, hval1.1, hval1.2.1⟩)),
            fun _ => hval1.2.2⟩
        · simp only [List.map_cons, List.map_nil, h2, hp2]
          exact ⟨Or.inr (Or.inr (Or.inr ⟨rfl, hval2.1, hval2.2.1⟩)),
            fun _ => hval2.2.2⟩
      · -- regex + context
        obtain ⟨hr1, hr2⟩ := PatternBuilder.regex_rule_shape _ _ r hr
        obtain ⟨hc1, hc2⟩ := PatternBuilder.context_rule_shape _ _ c hc
        have hval1 : Rat.divInt 3828059683264921 4503599627370496 ≤
            PatternBuilder.hybridConf [7/10, 8/10] ∧
            PatternBuilder.hybridConf [7/10, 8/10] ≤ 99/100 ∧
            1/2 ≤ PatternBuilder.hybridConf [7/10, 8/10] := by
          refine ⟨?_, ?_, ?_⟩ <;> with_unfolding_all decide
        have hval2 : Rat.divInt 3828059683264921 4503599627370496 ≤
            PatternBuilder.hybridConf [1, 8/10] ∧
            PatternBuilder.hybridConf [1, 8/10] ≤ 99/100 ∧
            1/2 ≤ PatternBuilder.hybridConf [1, 8/10] := by
          refine ⟨?_, ?_, ?_⟩ <;> with_unfolding_all decide
        rcases hr2 with h2 | h2
        · simp only [List.map_cons, List.map_nil, h2, hc2]
          exact ⟨Or.inr (Or.inr (Or.inr ⟨rfl, hval1.1, hval1.2.1⟩)),
            fun _ => hval1.2.2⟩
        · simp only [List.map_cons, List.map_nil, h2, hc2]
          exact ⟨Or.inr (Or.inr (Or.inr ⟨rfl, hval2.1, hval2.2.1⟩)),
            fun _ => hval2.2.2⟩
      · -- regex + context + position
        obtain ⟨hr1, hr2⟩ := PatternBuilder.regex_rule_shape _ _ r hr
        obtain ⟨hc1, hc2⟩ := PatternBuilder.context_rule_shape _ _ c hc
        obtain ⟨hp1, hp2⟩ := PatternBuilder.position_rule_shape ve p hp
        have hval1 : Rat.divInt 3828059683264921 4503599627370496 ≤
            PatternBuilder.hybridConf [7/10, 8/10, 6/10] ∧
            PatternBuilder.hybridConf [7/10, 8/10, 6/10] ≤ 99/100 ∧
            1/2 ≤ PatternBuilder.hybridConf [7/10, 8/10, 6/10] := by
          refine ⟨?_, ?_, ?_⟩ <;> with_unfolding_all decide
        have hval2 : Rat.divInt 3828059683264921 4503599627370496 ≤
            PatternBuilder.hybridConf [1, 8/10, 6/10] ∧
            PatternBuilder.hybridConf [1, 8/10, 6/10] ≤ 99/100 ∧
            1/2 ≤ PatternBuilder.hybridConf [1, 8/10, 6/10] := by
          refine ⟨?_, ?_, ?_⟩ <;> with_unfolding_all decide
        rcases hr2 with h2 | h2
        · simp only [List.map_cons, List.map_nil, h2, hc2, hp2]
          exact ⟨Or.inr (Or.inr (Or.inr ⟨rfl, hval1.1, hval1.2.1⟩)),
            fun _ => hval1.2.2⟩
        · simp only [List.map_cons, List.map_nil, h2, hc2, hp2]
          exact ⟨Or.inr (Or.inr (Or.inr ⟨rfl, hval2.1, hval2.2.1⟩)),
            fun _ => hval2.2.2⟩

/-- Witness for C10 (amended) at a concrete null-valued field. -/
theorem learn_rule_confidence_witness :
    (((PatternBuilder.learn_rule_for_field "endereco" Val.vnull []).1 = "none" ∧
        (PatternBuilder.learn_rule_for_field "endereco" Val.vnull []).2.2 = 9/10) ∨
      ((PatternBuilder.learn_rule_for_field "endereco" Val.vnull []).1 = "none" ∧
        (PatternBuilder.learn_rule_for_field "endereco" Val.vnull []).2.2 = 1/10) ∨
      ((PatternBuilder.learn_rule_for_field "endereco" Val.vnull []).1 ≠ "none" ∧
        (PatternBuilder.learn_rule_for_field "endereco" Val.vnull []).1 ≠ "hybrid" ∧
        3/5 ≤ (PatternBuilder.learn_rule_for_field "endereco" Val.vnull []).2.2 ∧
        (PatternBuilder.learn_rule_for_field "endereco" Val.vnull []).2.2 ≤ 1) ∨
      ((PatternBuilder.learn_rule_for_field "endereco" Val.vnull []).1 = "hybrid" ∧
        Rat.divInt 3828059683264921 4503599627370496 ≤
          (PatternBuilder.learn_rule_for_field "endereco" Val.vnull []).2.2 ∧
        (PatternBuilder.learn_rule_for_field "endereco" Val.vnull []).2.2 ≤ 99/100)) ∧
    ((PatternBuilder.learn_rule_for_field "endereco" Val.vnull []).2.2 ≠ 1/10 →
      1/2 ≤ (PatternBuilder.learn_rule_for_field "endereco" Val.vnull []).2.2) :=
  learn_rule_confidence "endereco" Val.vnull []

/-- Counterexample for C10 as stated: for field name `campo`, value `12`
and the single token `12` (no context anchor), the learner combines the
`numero` regex rule (0.7) with the position rule (0.6); in IEEE binary64
floats `(0.7 + 0.6) / 2 + 0.2` is 0.8499999999999999 — exactly
3828059683264921/4503599627370496, strictly below the 0.85 lower bound the
claim asserts for hybrids. -/
theorem hybrid_confidence_below_claimed_bound :
    (PatternBuilder.learn_rule_for_field "campo" (Val.vstr "12")
      [{ text := "12", x := 10, y := 10 }]).1 = "hybrid" ∧
    (PatternBuilder.learn_rule_for_field "campo" (Val.vstr "12")
      [{ text := "12", x := 10, y := 10 }]).2.2.num = 3828059683264921 ∧
    (PatternBuilder.learn_rule_for_field "campo" (Val.vstr "12")
      [{ text := "12", x := 10, y := 10 }]).2.2.den = 4503599627370496 ∧
    (PatternBuilder.learn_rule_for_field "campo" (Val.vstr "12")
      [{ text := "12", x := 10, y := 10 }]).2.2 < 85/100 := by
  refine ⟨?_, ?_, ?_, ?_⟩ <;> with_unfolding_all decide

/-! ## Claim C3: the template fast path crashes for every mature template

`check_and_use_template` hands `check_similarity` the raw token list where
a signature set is expected; the Jaccard computation calls `.intersection`
on that Python list and raises `AttributeError`.  The module's own tests
(`test_check_and_use_template_successful_match`) expect a dict instead. -/

theorem mature_template_always_raises (db : TemplateDB) (label : String)
    (elements : List Elem) (t : TemplateRow)
    (hfind : TemplateDatabase.find_template_by_label db label = some t)
    (hmature : TemplateOrchestrator.MIN_SAMPLE_THRESHOLD ≤ t.sample_count) :
    TemplateOrchestrator.check_and_use_template db label elements =
      .error .attributeError := by
  unfold TemplateOrchestrator.check_and_use_template
  rw [hfind]
  dsimp only
  rw [if_neg (Nat.not_lt.mpr hmature)]
  rfl

/-- A stored mature template for `carteira_oab`. -/
def c3_template : TemplateRow :=
  { id := 1, label := "carteira_oab", sample_count := 2, confidence := 1/2,
    structural_signature := ["nome"] }

def c3_db : TemplateDB :=
  { templates := [c3_template], rules := [], next_template_id := 2, next_rule_id := 1 }

/-- Claim C3, evaluated at a concrete failing input: with a mature
`carteira_oab` template stored, `check_and_use_template` raises
`AttributeError` instead of comparing signatures and running the Rule
Executor. -/
theorem check_and_use_template_mature_raises :
    TemplateOrchestrator.check_and_use_template c3_db "carteira_oab"
      [{ text := "Nome:", x := 0, y := 0 }] = .error .attributeError :=
  mature_template_always_raises c3_db "carteira_oab"
    [{ text := "Nome:", x := 0, y := 0 }] c3_template rfl (by decide)

/-! ## Further dictionary lemmas -/

theorem dictLookup_dictInsert {α : Type} (m : List (String × α)) (k' : String)
    (v : α) (k : String) :
    dictLookup (dictInsert m k' v) k =
      if k' = k then some v else dictLookup m k := by
  induction m with
  | nil => by_cases h : k' = k <;> simp [dictInsert, dictLookup, h]
  | cons hd tl ih =>
      by_cases h1 : hd.1 = k'
      · by_cases h2 : k' = k
        · simp [dictInsert, dictLookup, h1, h2, h1.trans h2]
        · have h3 : hd.1 ≠ k := fun hh => h2 (h1.symm.trans hh)
          simp [dictInsert, dictLookup, h1, h2, h3]
      · by_cases h2 : hd.1 = k
        · have h3 : k' ≠ k := fun hh => h1 (h2.trans hh.symm)
          simp [dictInsert, dictLookup, h1, h2, h3, Ne.symm h3]
        · simp [dictInsert, dictLookup, h1, h2, ih]

theorem dictInsert_isSome {α : Type} (m : List (String × α)) (k' : String)
    (v : α) (k : String) (h : (dictLookup m k).isSome = true) :
    (dictLookup (dictInsert m k' v) k).isSome = true := by
  rw [dictLookup_dictInsert]
  split_ifs <;> simp [h]

theorem dictUpdate_isSome_left {α : Type} (other : List (String × α)) :
    ∀ (m : List (String × α)) (k : String),
      (dictLookup m k).isSome = true →
      (dictLookup (dictUpdate m other) k).isSome = true := by
  induction other with
  | nil => intro m k h; exact h
  | cons hd tl ih =>
      intro m k h
      exact ih _ _ (dictInsert_isSome m hd.1 hd.2 k h)

theorem dictUpdate_isSome_right {α : Type} (other : List (String × α)) :
    ∀ (m : List (String × α)) (k : String),
      (dictLookup other k).isSome = true →
      (dictLookup (dictUpdate m other) k).isSome = true := by
  induction other with
  | nil => intro m k h; simp [dictLookup] at h
  | cons hd tl ih =>
      intro m k h
      by_cases hk : hd.1 = k
      · by_cases htl : (dictLookup tl k).isSome = true
        · exact ih _ _ htl
        · refine dictUpdate_isSome_left tl _ _ ?_
          rw [dictLookup_dictInsert]
          simp [hk]
      · simp only [dictLookup, hk, if_false] at h
        exact ih _ _ h

/-! ## The Tier-3 partial entry covers every schema key -/

namespace CacheManager

theorem l3_step_isSome (st : CacheState) (pdf_bytes : Bytes) (label : String)
    (acc : List (String × Val) × Nat) (kv : String × String) (k : String)
    (h : (dictLookup acc.1 k).isSome = true) :
    (dictLookup (l3_step st pdf_bytes label acc kv).1 k).isSome = true := by
  unfold l3_step
  rcases dictLookup st.l2_disk_cache
      (CacheKeyBuilder.generate_l3_field_key pdf_bytes label kv.1) with _ | (_ | _) <;>
    exact dictInsert_isSome _ _ _ _ h

theorem l3_step_self_isSome (st : CacheState) (pdf_bytes : Bytes) (label : String)
    (acc : List (String × Val) × Nat) (kv : String × String) :
    (dictLookup (l3_step st pdf_bytes label acc kv).1 kv.1).isSome = true := by
  unfold l3_step
  rcases dictLookup st.l2_disk_cache
      (CacheKeyBuilder.generate_l3_field_key pdf_bytes label kv.1) with _ | (_ | _) <;>
    simp [dictLookup_dictInsert_self]

theorem l3_fold_isSome_pres (st : CacheState) (pdf_bytes : Bytes) (label : String)
    (schema : List (String × String)) :
    ∀ (acc : List (String × Val) × Nat) (k : String),
      (dictLookup acc.1 k).isSome = true →
      (dictLookup (schema.foldl (l3_step st pdf_bytes label) acc).1 k).isSome = true := by
  induction schema with
  | nil => intro acc k h; exact h
  | cons hd tl ih =>
      intro acc k h
      exact ih _ _ (l3_step_isSome st pdf_bytes label acc hd k h)

theorem l3_fold_covers (st : CacheState) (pdf_bytes : Bytes) (label : String)
    (schema : List (String × String)) :
    ∀ (acc : List (String × Val) × Nat) (kv : String × String), kv ∈ schema →
      (dictLookup (schema.foldl (l3_step st pdf_bytes label) acc).1 kv.1).isSome = true := by
  induction schema with
  | nil => intro _ _ h; simp at h
  | cons hd tl ih =>
      intro acc kv hkv
      rcases List.mem_cons.mp hkv with hkv | hkv
      · subst hkv
        exact l3_fold_isSome_pres st pdf_bytes label tl _ _
          (l3_step_self_isSome st pdf_bytes label acc kv)
      · exact ih _ kv hkv

/-- The shape of a synthesised Tier-3 partial entry. -/
theorem l3_partial_shape (st : CacheState) (pdf_bytes : Bytes) (label : String)
    (schema : List (String × String)) (e : CacheEntry)
    (h : _check_l3_partialEntry st pdf_bytes label schema = some e) :
    e.data = (schema.foldl (l3_step st pdf_bytes label) ([], 0)).1 ∧
    e.cache_info.map CacheInfo.source = some "L3_PARTIAL" := by
  simp only [_check_l3_partialEntry] at h
  split_ifs at h
  rw [← Option.some_inj.mp h]
  exact ⟨rfl, rfl⟩

/-- `_check_l2` misses when the disk cache holds no full entry at the key. -/
theorem check_l2_none (st : CacheState) (key : String)
    (h : isEntryHit (dictLookup st.l2_disk_cache key) = false) :
    _check_l2 st key = none := by
  unfold _check_l2
  rcases hv : dictLookup st.l2_disk_cache key with _ | (_ | _) <;>
    rw [hv] at h <;> simp [hv, isEntryHit] at h ⊢

/-- Under Tier-1 and Tier-2 misses, `get`'s outcome is exactly the Tier-3
partial lookup. -/
theorem get_fst_eq_l3 (st : CacheState) (pdf_bytes : Bytes) (label : String)
    (schema : List (String × String))
    (h1 : dictLookup st.l1_memory_cache
      (CacheKeyBuilder.generate_l1_l2_key pdf_bytes label schema) = none)
    (h2 : isEntryHit (dictLookup st.l2_disk_cache
      (CacheKeyBuilder.generate_l1_l2_key pdf_bytes label schema)) = false) :
    (CacheManager.get st pdf_bytes label schema).1 =
      CacheManager._check_l3_partialEntry
        { st with total_requests := st.total_requests + 1 } pdf_bytes label schema := by
  unfold CacheManager.get CacheManager._check_l1
  dsimp only
  rw [h1]
  dsimp only
  rw [CacheManager.check_l2_none
      { st with total_requests := st.total_requests + 1 }
      (CacheKeyBuilder.generate_l1_l2_key pdf_bytes label schema) h2]
  rcases hl3 : CacheManager._check_l3_partialEntry
      { st with total_requests := st.total_requests + 1 } pdf_bytes label schema with _ | e <;>
    simp [hl3]

/-- With an empty disk cache the Tier-3 loop finds nothing. -/
theorem l3_fold_count_empty (st : CacheState) (pdf_bytes : Bytes) (label : String)
    (h : st.l2_disk_cache = []) (schema : List (String × String)) :
    ∀ acc : List (String × Val) × Nat,
      (schema.foldl (l3_step st pdf_bytes label) acc).2 = acc.2 := by
  induction schema with
  | nil => intro acc; rfl
  | cons hd tl ih =>
      intro acc
      rw [List.foldl_cons]
      rw [show l3_step st pdf_bytes label acc hd =
          (dictInsert acc.1 hd.1 .vnull, acc.2) by
        unfold l3_step; rw [h]; rfl]
      exact ih _

theorem l3_partial_empty_l2 (st : CacheState) (pdf_bytes : Bytes) (label : String)
    (schema : List (String × String)) (h : st.l2_disk_cache = []) :
    _check_l3_partialEntry st pdf_bytes label schema = none := by
  simp only [_check_l3_partialEntry]
  rw [l3_fold_count_empty st pdf_bytes label h schema ([], 0)]
  simp

end CacheManager

/-! ## Pipeline stage lemmas -/

namespace ExtractionPipeline

/-- Without a mature template, the fast path declines cleanly. -/
theorem check_immature (db : TemplateDB) (label : String) (elements : List Elem)
    (h : templateMature db label = false) :
    TemplateOrchestrator.check_and_use_template db label elements = .ok none := by
  unfold templateMature at h
  unfold TemplateOrchestrator.check_and_use_template
  rcases hfind : TemplateDatabase.find_template_by_label db label with _ | t
  · rfl
  · rw [hfind] at h
    simp only [decide_eq_false_iff_not, Nat.not_le] at h
    dsimp only
    rw [if_pos h]

theorem template_stage_immature (db : TemplateDB) (label : String)
    (elements : List Elem) (final0 : List (String × Val))
    (sch0 : List (String × String)) (steps0 : List String) (stats : PipeStats)
    (h : templateMature db label = false) :
    template_stage db label elements final0 sch0 steps0 stats =
      .ok (final0, sch0, steps0, stats) := by
  unfold template_stage
  by_cases hsch : sch0.isEmpty
  · rw [if_pos hsch]
  · rw [if_neg hsch, check_immature db label elements h]
    rfl

end ExtractionPipeline

/-! ## Claims C1 and C5: behaviour after an unparseable LLM response -/

/-- Counterexample for C1 as stated: from a fresh pipeline, a request for
field `nome` whose LLM response is unparseable still succeeds, but the
template store's rule set for the label changes — a `none` rule with
confidence 0.9 is persisted where there was none before. -/
theorem pipeline_unparseable_rules_change_counterexample :
    (rules_for_label pipelineInit.db "x").length = 0 ∧
    exceptIsOk (ExtractionPipeline.extract pipelineInit [] "x" [("nome", "d")] []
      (fun _ => LLMResult.unparseable)) = true ∧
    (rules_for_label (run_state (ExtractionPipeline.extract pipelineInit [] "x"
        [("nome", "d")] [] (fun _ => LLMResult.unparseable))).db "x").map
      (fun r => (r.field_name, r.rule_type, r.confidence)) =
      [("nome", "none", 9/10)] := by
  refine ⟨rfl, ?_, ?_⟩ <;> with_unfolding_all decide

/-- Counterexample for C5 as stated: in the same run the field `nome`,
produced by no stage, is omitted from the final result instead of being
reported as null. -/
theorem pipeline_field_omitted_counterexample :
    exceptIsOk (ExtractionPipeline.extract pipelineInit [] "x" [("nome", "d")] []
      (fun _ => LLMResult.unparseable)) = true ∧
    dictLookup (run_result (ExtractionPipeline.extract pipelineInit [] "x"
      [("nome", "d")] [] (fun _ => LLMResult.unparseable))) "nome" = none := by
  constructor <;> with_unfolding_all decide

/-! ## Learning from the empty LLM object (unparseable response) -/

namespace TemplateOrchestrator

/-- A persisted `none` rule (confidence 0.9) for a field of a template. -/
def hasNoneRule (db : TemplateDB) (tid : Nat) (f : String) : Prop :=
  ∃ r ∈ db.rules, r.template_id = tid ∧ r.field_name = f ∧
    r.rule_type = "none" ∧ r.rule_data = RuleData.noneR "value_is_null" ∧
    r.confidence = 9/10

/-- With the empty LLM object every field value reads as `None`, so each
learning step persists the 0.9-confidence `none` rule. -/
theorem learn_field_step_empty (elements : List Elem) (tid : Nat)
    (db : TemplateDB) (kv : String × String) :
    learn_field_step elements [] tid db kv =
      TemplateDatabase.add_extraction_rule db tid kv.1 "none"
        (RuleData.noneR "value_is_null") (9/10) := by
  simp only [learn_field_step, dictLookup, Option.getD,
    PatternBuilder.learn_rule_for_field, true_or, if_true]
  norm_num [MIN_RULE_CONFIDENCE_TO_SAVE]

theorem add_none_has (db : TemplateDB) (tid : Nat) (f : String) :
    hasNoneRule (TemplateDatabase.add_extraction_rule db tid f "none"
      (RuleData.noneR "value_is_null") (9/10)) tid f := by
  refine ⟨{ id := db.next_rule_id, template_id := tid, field_name := f,
            rule_type := "none", rule_data := RuleData.noneR "value_is_null",
            confidence := 9/10 }, ?_, rfl, rfl, rfl, rfl, rfl⟩
  simp [TemplateDatabase.add_extraction_rule]

theorem step_adds_none (elements : List Elem) (tid : Nat) (db : TemplateDB)
    (kv : String × String) :
    hasNoneRule (learn_field_step elements [] tid db kv) tid kv.1 := by
  rw [learn_field_step_empty]
  exact add_none_has db tid kv.1

/-- The upsert for another field keeps (or re-creates) the `none` rule. -/
theorem step_preserves_none (elements : List Elem) (tid : Nat)
    (db : TemplateDB) (kv : String × String) (f : String)
    (h : hasNoneRule db tid f) :
    hasNoneRule (learn_field_step elements [] tid db kv) tid f := by
  rw [learn_field_step_empty]
  by_cases hf : f = kv.1
  · subst hf; exact add_none_has db tid kv.1
  · obtain ⟨r, hr, h1, h2, h3, h4, h5⟩ := h
    refine ⟨r, ?_, h1, h2, h3, h4, h5⟩
    simp only [TemplateDatabase.add_extraction_rule, List.mem_append,
      List.mem_filter]
    left
    refine ⟨hr, ?_⟩
    simp [h2, hf]

theorem fold_preserves_none (elements : List Elem) (tid : Nat) (f : String) :
    ∀ (l : List (String × String)) (db : TemplateDB), hasNoneRule db tid f →
      hasNoneRule (l.foldl (learn_field_step elements [] tid) db) tid f := by
  intro l
  induction l with
  | nil => intro db h; exact h
  | cons hd tl ih =>
      intro db h
      rw [List.foldl_cons]
      exact ih _ (step_preserves_none elements tid db hd f h)

theorem fold_adds_none (elements : List Elem) (tid : Nat) :
    ∀ (l : List (String × String)) (db : TemplateDB) (kv : String × String),
      kv ∈ l →
      hasNoneRule (l.foldl (learn_field_step elements [] tid) db) tid kv.1 := by
  intro l
  induction l with
  | nil => intro db kv h; cases h
  | cons hd tl ih =>
      intro db kv hkv
      rw [List.foldl_cons]
      rcases List.mem_cons.mp hkv with hkv | hkv
      · subst hkv
        exact fold_preserves_none elements tid kv.1 tl _
          (step_adds_none elements tid db kv)
      · exact ih _ kv hkv

theorem fold_none_templates (elements : List Elem) (tid : Nat) :
    ∀ (l : List (String × String)) (db : TemplateDB),
      (l.foldl (learn_field_step elements [] tid) db).templates =
        db.templates := by
  intro l
  induction l with
  | nil => intro db; rfl
  | cons hd tl ih =>
      intro db
      rw [List.foldl_cons, learn_field_step_empty]
      exact ih _

/-- Learning from an unparseable (empty) LLM result on a fresh template
store ends with a `none` rule stored for every schema field. -/
theorem learn_from_empty_has_none (label : String)
    (schema : List (String × String)) (elements : List Elem) :
    ∀ kv ∈ schema, ∃ r ∈ rules_for_label
        (learn_from_llm_result TemplateDatabase.init label schema [] elements)
        label,
      r.field_name = kv.1 ∧ r.rule_type = "none" ∧
      r.rule_data = RuleData.noneR "value_is_null" ∧ r.confidence = 9/10 := by
  intro kv hkv
  have hred : learn_from_llm_result TemplateDatabase.init label schema []
      elements =
      schema.foldl (learn_field_step elements [] 1)
        (TemplateDatabase.create_template TemplateDatabase.init label
          (StructuralMatcher.extract_signature elements)).2 := rfl
  rw [hred]
  have hfind : TemplateDatabase.find_template_by_label
      (schema.foldl (learn_field_step elements [] 1)
        (TemplateDatabase.create_template TemplateDatabase.init label
          (StructuralMatcher.extract_signature elements)).2) label =
      some { id := 1, label := label, sample_count := 1, confidence := 1/2,
             structural_signature := TemplateDatabase.sortStrings
               (StructuralMatcher.extract_signature elements) } := by
    unfold TemplateDatabase.find_template_by_label
    rw [fold_none_templates elements 1 schema]
    simp [TemplateDatabase.create_template, TemplateDatabase.init, List.find?]
  obtain ⟨r, hr, htid, hf, hty, hd, hc⟩ :=
    fold_adds_none elements 1 schema _ kv hkv
  refine ⟨r, ?_, hf, hty, hd, hc⟩
  unfold rules_for_label
  rw [hfind]
  unfold TemplateDatabase.get_extraction_rules
  exact List.mem_filter.mpr ⟨hr, by simp [htid]⟩

end TemplateOrchestrator

/-! ## Reducing `extract` on a fresh pipeline / cache miss -/

namespace ExtractionPipeline

theorem exceptBind_ok {α β : Type} (a : α) (f : α → Except PyError β) :
    (Except.ok a >>= f) = f a := rfl

/-- After the cache stage misses and the template is immature, the request
always succeeds; when the LLM response is unparseable the learned store is
`learn_from_llm_result` on the empty object. -/
theorem pipeline_rest_unparseable (cache1 : CacheState) (db : TemplateDB)
    (stats : PipeStats) (pdf_bytes : Bytes) (label : String)
    (schema : List (String × String)) (elements : List Elem)
    (llm : List (String × String) → LLMResult)
    (hmat : templateMature db label = false)
    (hne : schema.isEmpty = false)
    (hllm : llm schema = LLMResult.unparseable) :
    ∃ res st2,
      pipeline_rest cache1 db stats pdf_bytes label schema elements llm
        [] schema [] = .ok (res, st2) ∧
      st2.db = TemplateOrchestrator.learn_from_llm_result db label schema []
        elements := by
  unfold pipeline_rest
  rw [template_stage_immature db label elements [] schema [] stats hmat]
  rw [exceptBind_ok]
  dsimp only
  simp only [llm_stage, hne, hllm, Bool.false_eq_true, if_false,
    List.isEmpty_nil, if_true, List.nil_append]
  exact ⟨_, _, rfl, rfl⟩

/-- On a fresh pipeline every request falls through the caches to
`pipeline_rest` with the full schema outstanding. -/
theorem extract_fresh_miss (pdf_bytes : Bytes) (label : String)
    (schema : List (String × String)) (elements : List Elem)
    (llm : List (String × String) → LLMResult) :
    extract pipelineInit pdf_bytes label schema elements llm =
      pipeline_rest (CacheManager.get CacheManager.init pdf_bytes label
          schema).2
        TemplateDatabase.init
        { total_requests := 1, cache_hits_l1_l2 := 0, cache_hits_l3 := 0,
          template_hits := 0, llm_calls_full := 0, llm_calls_fallback := 0 }
        pdf_bytes label schema elements llm [] schema [] := by
  have hget1 : (CacheManager.get CacheManager.init pdf_bytes label
      schema).1 = none := by
    rw [CacheManager.get_fst_eq_l3 CacheManager.init pdf_bytes label schema
      rfl rfl]
    exact CacheManager.l3_partial_empty_l2 _ pdf_bytes label schema rfl
  simp only [extract, pipelineInit, hget1, Nat.zero_add]

end ExtractionPipeline

/-- C1 (amended).  An unparseable LLM response is recovered as the empty
object and the request succeeds, but rules ARE learned from it: on a fresh
pipeline, after such a request a `none` rule (`value_is_null`, confidence
0.9) is stored for every field of the (non-empty) schema — the label's rule
set does not stay what it was before the request. -/
theorem unparseable_llm_learns_none_rules (pdf_bytes : Bytes) (label : String)
    (schema : List (String × String)) (elements : List Elem)
    (llm : List (String × String) → LLMResult)
    (hne : schema.isEmpty = false)
    (hllm : llm schema = LLMResult.unparseable) :
    ∃ res st2,
      ExtractionPipeline.extract pipelineInit pdf_bytes label schema elements
        llm = .ok (res, st2) ∧
      ∀ kv ∈ schema, ∃ r ∈ rules_for_label st2.db label,
        r.field_name = kv.1 ∧ r.rule_type = "none" ∧
        r.rule_data = RuleData.noneR "value_is_null" ∧
        r.confidence = 9/10 := by
  obtain ⟨res, st2, hok, hdb⟩ :=
    ExtractionPipeline.pipeline_rest_unparseable
      (CacheManager.get CacheManager.init pdf_bytes label schema).2
      TemplateDatabase.init
      { total_requests := 1, cache_hits_l1_l2 := 0, cache_hits_l3 := 0,
        template_hits := 0, llm_calls_full := 0, llm_calls_fallback := 0 }
      pdf_bytes label schema elements llm rfl hne hllm
  refine ⟨res, st2, ?_, ?_⟩
  · rw [ExtractionPipeline.extract_fresh_miss]
    exact hok
  · intro kv hkv
    rw [hdb]
    exact TemplateOrchestrator.learn_from_empty_has_none label schema elements
      kv hkv

/-- Witness for C1 (amended) at a concrete input. -/
theorem unparseable_llm_learns_none_rules_witness :
    ([("nome", "string")] : List (String × String)).isEmpty = false ∧
    (∃ res st2,
      ExtractionPipeline.extract pipelineInit [] "doc" [("nome", "string")] []
        (fun _ => LLMResult.unparseable) = .ok (res, st2) ∧
      ∀ kv ∈ [("nome", "string")], ∃ r ∈ rules_for_label st2.db "doc",
        r.field_name = kv.1 ∧ r.rule_type = "none" ∧
        r.rule_data = RuleData.noneR "value_is_null" ∧
        r.confidence = 9/10) :=
  ⟨rfl, unparseable_llm_learns_none_rules [] "doc" [("nome", "string")] []
    (fun _ => LLMResult.unparseable) rfl rfl⟩

/-! ## Coverage of the schema keys when the LLM answers every field -/

namespace ExtractionPipeline

/-- After a cache decision, the tail of the pipeline covers every schema
key as long as each key either already has a value or is still in the
outstanding schema and the LLM answers every requested field. -/
theorem pipeline_rest_covers (cache1 : CacheState) (db : TemplateDB)
    (stats : PipeStats) (pdf_bytes : Bytes) (label : String)
    (schema : List (String × String)) (elements : List Elem)
    (llm : List (String × String) → LLMResult)
    (final0 : List (String × Val)) (sch0 : List (String × String))
    (steps0 : List String)
    (hmat : templateMature db label = false)
    (h4 : ∀ sch, ∃ d, llm sch = LLMResult.parsed d ∧
      ∀ kv ∈ sch, (dictLookup d kv.1).isSome = true)
    (hcov : ∀ kv ∈ schema,
      (dictLookup final0 kv.1).isSome = true ∨ kv ∈ sch0) :
    ∃ res st2,
      pipeline_rest cache1 db stats pdf_bytes label schema elements llm
        final0 sch0 steps0 = .ok (res, st2) ∧
      ∀ kv ∈ schema, (dictLookup res kv.1).isSome = true := by
  unfold pipeline_rest
  rw [template_stage_immature db label elements final0 sch0 steps0 stats hmat]
  rw [exceptBind_ok]
  dsimp only
  cases sch0 with
  | nil =>
      simp only [llm_stage, List.isEmpty_nil, if_true]
      refine ⟨_, _, rfl, ?_⟩
      intro kv hkv
      rcases hcov kv hkv with h | h
      · exact dictInsert_isSome _ _ _ _ h
      · cases h
  | cons kv0 sch0t =>
      obtain ⟨d, hd, hdcov⟩ := h4 (kv0 :: sch0t)
      simp only [llm_stage, List.isEmpty_cons, Bool.false_eq_true, if_false,
        hd]
      refine ⟨_, _, rfl, ?_⟩
      intro kv hkv
      rcases hcov kv hkv with h | h
      · exact dictInsert_isSome _ _ _ _
          (dictUpdate_isSome_left d final0 kv.1 h)
      · exact dictInsert_isSome _ _ _ _
          (dictUpdate_isSome_right d final0 kv.1 (hdcov kv h))

end ExtractionPipeline

/-- C5 (amended).  When the caches miss or give a Tier-3 partial, the
template is immature, and the LLM answers every field it is asked, every
schema key appears in the final result (the Tier-3 partial entry itself
carries a null for each unfound field).  Without the LLM-coverage
hypothesis a field produced by no stage is omitted, not null. -/
theorem pipeline_schema_keys_covered (st : PipelineState) (pdf_bytes : Bytes)
    (label : String) (schema : List (String × String)) (elements : List Elem)
    (llm : List (String × String) → LLMResult)
    (h1 : dictLookup st.cache.l1_memory_cache
      (CacheKeyBuilder.generate_l1_l2_key pdf_bytes label schema) = none)
    (h2 : isEntryHit (dictLookup st.cache.l2_disk_cache
      (CacheKeyBuilder.generate_l1_l2_key pdf_bytes label schema)) = false)
    (h3 : templateMature st.db label = false)
    (h4 : ∀ sch, ∃ d, llm sch = LLMResult.parsed d ∧
      ∀ kv ∈ sch, (dictLookup d kv.1).isSome = true) :
    ∃ res st2,
      ExtractionPipeline.extract st pdf_bytes label schema elements llm =
        .ok (res, st2) ∧
      ∀ kv ∈ schema, (dictLookup res kv.1).isSome = true := by
  have hget : (CacheManager.get st.cache pdf_bytes label schema).1 =
      CacheManager._check_l3_partialEntry
        { st.cache with total_requests := st.cache.total_requests + 1 }
        pdf_bytes label schema :=
    CacheManager.get_fst_eq_l3 st.cache pdf_bytes label schema h1 h2
  rcases hl3 : CacheManager._check_l3_partialEntry
      { st.cache with total_requests := st.cache.total_requests + 1 }
      pdf_bytes label schema with _ | e
  · have hget1 : (CacheManager.get st.cache pdf_bytes label schema).1 =
        none := hget.trans hl3
    simp only [ExtractionPipeline.extract, hget1]
    exact ExtractionPipeline.pipeline_rest_covers _ _ _ _ _ _ _ _ _ _ _
      h3 h4 (fun kv hkv => Or.inr hkv)
  · obtain ⟨hedata, hesrc⟩ :=
      CacheManager.l3_partial_shape _ pdf_bytes label schema e hl3
    have hget1 : (CacheManager.get st.cache pdf_bytes label schema).1 =
        some e := hget.trans hl3
    simp only [ExtractionPipeline.extract, hget1]
    have hsrc1 : ¬(e.cache_info.map CacheInfo.source = some "L1_MEMORY" ∨
        e.cache_info.map CacheInfo.source = some "L2_DISK") := by
      rw [hesrc]
      rintro (h | h) <;> exact absurd h (by decide)
    rw [if_neg hsrc1, if_pos hesrc]
    refine ExtractionPipeline.pipeline_rest_covers _ _ _ _ _ _ _ _ _ _ _
      h3 h4 (fun kv hkv => Or.inl ?_)
    rw [hedata]
    exact CacheManager.l3_fold_covers _ pdf_bytes label schema ([], 0) kv hkv

/-- An LLM that echoes `null` for every requested key satisfies the
coverage contract. -/
theorem echo_llm_keys : ∀ (sch : List (String × String)), ∀ kv ∈ sch,
    (dictLookup (sch.map fun kv2 => (kv2.1, Val.vnull)) kv.1).isSome =
      true := by
  intro sch
  induction sch with
  | nil => intro kv h; cases h
  | cons hd tl ih =>
      intro kv hkv
      rcases List.mem_cons.mp hkv with h | h
      · subst h
        simp [dictLookup]
      · by_cases he : hd.1 = kv.1
        · simp [dictLookup, he]
        · simp only [List.map_cons, dictLookup]
          rw [if_neg he]
          exact ih kv h

/-- Witness for C5 (amended): a fresh pipeline, one schema field, and an
LLM echoing null for every requested key. -/
theorem pipeline_schema_keys_covered_witness :
    (dictLookup pipelineInit.cache.l1_memory_cache
      (CacheKeyBuilder.generate_l1_l2_key [] "doc" [("nome", "string")]) =
        none) ∧
    (∃ res st2,
      ExtractionPipeline.extract pipelineInit [] "doc" [("nome", "string")] []
        (fun sch => LLMResult.parsed (sch.map fun kv => (kv.1, Val.vnull))) =
        .ok (res, st2) ∧
      ∀ kv ∈ [("nome", "string")], (dictLookup res kv.1).isSome = true) :=
  ⟨rfl, pipeline_schema_keys_covered pipelineInit [] "doc"
    [("nome", "string")] []
    (fun sch => LLMResult.parsed (sch.map fun kv => (kv.1, Val.vnull)))
    rfl rfl rfl
    (fun sch => ⟨sch.map fun kv => (kv.1, Val.vnull), rfl,
      echo_llm_keys sch⟩)⟩

end PDFX
